import Mathlib

/-!
Shallow embedding of the table-reconstruction engine of the `pdf-to-md`
repository, taken from `src/converter/extractors/table/table_extractor.py`
and (for the functions that only exist there) `src/converter/extractors.py`,
together with theorems settling the frozen claims about it.

Modelling conventions: Python strings are `List Char`, Python floats are `ℚ`,
Python dictionaries are structures, fallible lookups are `Option`.  Each
regular expression of the source is hand-translated into an equivalent
executable scanner over `List Char`; the translation is noted next to each
definition.
-/

/-! ### Characters and Python string primitives -/

/-- Python strings are modelled as lists of characters. -/
abbrev Str := List Char

/-- Whitespace characters recognised by Python's `str.split`, `str.strip`
and the regex class `\s` (ASCII range). -/
def isSpaceChar (c : Char) : Bool :=
  c = ' ' || c = '\t' || c = '\n' || c = '\r' || c = '\x0b' || c = '\x0c'

/-- Regex class `\d` (ASCII). -/
def isDigitChar (c : Char) : Bool := c.isDigit

/-- Regex class `[A-Za-z]` (ASCII). -/
def isAlphaChar (c : Char) : Bool := c.isAlpha

/-- Regex word class `\w` (ASCII part, as used on the ASCII inputs here). -/
def isWordChar (c : Char) : Bool := c.isAlpha || c.isDigit || c = '_'

/-- Regex class `[A-Z]`. -/
def isUpperChar (c : Char) : Bool := c.isUpper

/-- Regex class `[a-z]`. -/
def isLowerChar (c : Char) : Bool := c.isLower

/-- Python `str.strip()`: drop whitespace from both ends. -/
def pyStrip (s : Str) : Str :=
  ((s.dropWhile isSpaceChar).reverse.dropWhile isSpaceChar).reverse

/-- Helper for `pySplit`, accumulating the current word in reverse. -/
def pySplitAux : Str → Str → List Str
  | [], acc => if acc.isEmpty then [] else [acc.reverse]
  | c :: cs, acc =>
    if isSpaceChar c then
      if acc.isEmpty then pySplitAux cs [] else acc.reverse :: pySplitAux cs []
    else pySplitAux cs (c :: acc)

/-- Python `str.split()` with no separator: split on whitespace runs and drop
empty pieces. -/
def pySplit (s : Str) : List Str := pySplitAux s []

/-- Python `str.split(sep)` for a one-character separator: keeps empty pieces. -/
def pySplitChar (sep : Char) : Str → List Str
  | [] => [[]]
  | c :: cs =>
    let r := pySplitChar sep cs
    if c = sep then [] :: r
    else
      match r with
      | [] => [[c]]
      | h :: t => (c :: h) :: t

/-- Python `str.count(c)` for a single character. -/
def countChar (c : Char) (s : Str) : ℕ := s.countP (fun d => d = c)

/-- Python `' '.join(words)`. -/
def joinWords (ws : List Str) : Str := (ws.intersperse [' ']).flatten

/-- Python `str.lower()` (ASCII). -/
def toLowerStr (s : Str) : Str := s.map Char.toLower

/-- Distance of two naturals (`abs(a - b)` on Python ints). -/
def natDist (a b : ℕ) : ℕ := max a b - min a b

/-- Python `max(l)` for a list of naturals (0 on the empty list; the source
only calls it on non-empty lists). -/
def maxNat (l : List ℕ) : ℕ := l.foldl max 0

/-- Python `min(l)` for a list of naturals (0 on the empty list; the source
only calls it on non-empty lists). -/
def minNat : List ℕ → ℕ
  | [] => 0
  | h :: t => t.foldl min h

/-- Python list slice `l[:k]` for a possibly negative bound `k`. -/
def pyTakeI (k : ℤ) (l : List α) : List α :=
  if 0 ≤ k then l.take k.toNat else l.take ((l.length : ℤ) + k).toNat

/-- Python `max(l, key)` with a natural-valued key: the first maximal element
wins, matching CPython's `max`, which only replaces the current best on a
strictly larger key. -/
def pyMaxByNat (key : α → ℕ) (l : List α) : Option α :=
  l.foldl (fun acc x =>
    match acc with
    | none => some x
    | some a => if key a < key x then some x else some a) none

/-- Insertion step of an ascending insertion sort on naturals. -/
def insertNatAsc (x : ℕ) : List ℕ → List ℕ
  | [] => [x]
  | h :: t => if x ≤ h then x :: h :: t else h :: insertNatAsc x t

/-- Python `sorted` / `list.sort()` on naturals (ascending). -/
def sortNatAsc (l : List ℕ) : List ℕ := l.foldr insertNatAsc []

/-- The distinct values of a list of naturals in increasing order.  This
models iterating over a CPython `set` of small non-negative ints, whose
iteration order is the hash (= value) order for the inputs arising here. -/
def sortedUnique (l : List ℕ) : List ℕ := sortNatAsc l.dedup

/-! ### Generic regex-scanner building blocks

Positions are character indices; `s.get? i` is the character at `i`.  A word
boundary `\b` before position `i` holds when `i` is the string start or the
previous character is not a word character; after position `i` when the
character at `i` is absent or not a word character. -/

/-- Character test at an index (false past the end). -/
def testAt (p : Char → Bool) (s : Str) (i : ℕ) : Bool :=
  match s.get? i with
  | some c => p c
  | none => false

/-- Word boundary on the right of a match ending just before index `i`. -/
def nonWordAt (s : Str) (i : ℕ) : Bool :=
  match s.get? i with
  | some c => !isWordChar c
  | none => true

/-- Word boundary on the left of a match starting at index `i`. -/
def boundaryBefore (s : Str) (i : ℕ) : Bool :=
  decide (i = 0) || !testAt isWordChar s (i - 1)

/-- Length of the maximal run of characters satisfying `p` starting at `i`. -/
def runLen (p : Char → Bool) (s : Str) (i : ℕ) : ℕ :=
  ((s.drop i).takeWhile p).length

/-- Occurrence of `pat` as a substring of `s` (`pat in s` in Python, or a
regex search for a literal). -/
def containsSub (pat : Str) (s : Str) : Bool :=
  (List.range (s.length + 1)).any (fun i => pat.isPrefixOf (s.drop i))

/-- Search for `\bet al\.`: the literal `et al.` preceded by a word boundary. -/
def searchEtAl (s : Str) : Bool :=
  (List.range s.length).any (fun k =>
    List.isPrefixOf "et al.".toList (s.drop k) && boundaryBefore s k)

/-- Search for `\(\d{4}\)`: a parenthesised run of exactly four digits. -/
def searchYearParens (s : Str) : Bool :=
  (List.range s.length).any (fun i =>
    testAt (· = '(') s i && testAt isDigitChar s (i + 1) &&
    testAt isDigitChar s (i + 2) && testAt isDigitChar s (i + 3) &&
    testAt isDigitChar s (i + 4) && testAt (· = ')') s (i + 5))

/-- Search for `\b\w+(?:ness|ity|ance|ence|acy|ion)\b`: a word (maximal run of
word characters) that strictly ends in one of the listed suffixes. -/
def searchPerformanceSuffix (s : Str) : Bool :=
  (List.range s.length).any (fun i =>
    testAt isWordChar s i && boundaryBefore s i &&
    (let w := (s.drop i).take (runLen isWordChar s i)
     [String.toList "ness", String.toList "ity", String.toList "ance",
      String.toList "ence", String.toList "acy", String.toList "ion"].any
       (fun suf => decide (suf.length < w.length) && List.isSuffixOf suf w)))

/-- Search for an alternation of `\b\w*KEY\w*\b` patterns: a word containing
one of the keys as a substring. -/
def searchWordContaining (keys : List Str) (s : Str) : Bool :=
  (List.range s.length).any (fun i =>
    testAt isWordChar s i && boundaryBefore s i &&
    keys.any (fun key => containsSub key ((s.drop i).take (runLen isWordChar s i))))

/-- Match of `\d+\.?\d*%` starting at index `i` (greedy matching is
deterministic for this pattern). -/
def percentMatchAt (s : Str) (i : ℕ) : Bool :=
  testAt isDigitChar s i &&
  (let j := i + runLen isDigitChar s i
   testAt (· = '%') s j ||
   (testAt (· = '.') s j &&
    (let m := runLen isDigitChar s (j + 1)
     testAt (· = '%') s (j + 1 + m))))

/-- Search for `\d+\.?\d*%`. -/
def searchPercentage (s : Str) : Bool :=
  (List.range s.length).any (percentMatchAt s)

/-- Search for `\b[A-Z]{lo,hi}\b` (`hi = none` meaning unbounded): a maximal
run of capitals of admissible length delimited by word boundaries on both
sides.  A shorter slice of a longer run never matches, because the following
capital is a word character. -/
def searchCapsWord (lo : ℕ) (hi : Option ℕ) (s : Str) : Bool :=
  (List.range s.length).any (fun i =>
    testAt isUpperChar s i && boundaryBefore s i &&
    (let L := runLen isUpperChar s i
     decide (lo ≤ L) &&
     (match hi with
      | some h => decide (L ≤ h)
      | none => true) &&
     !testAt isWordChar s (i + L)))

/-- Search for `\d+\.\d+|\d+%`: either a digit, dot, digit triple or a digit
immediately followed by a percent sign. -/
def searchNumberPattern (s : Str) : Bool :=
  (List.range s.length).any (fun i =>
    (testAt isDigitChar s i && testAt (· = '.') s (i + 1) &&
     testAt isDigitChar s (i + 2)) ||
    (testAt isDigitChar s i && testAt (· = '%') s (i + 1)))

/-- Search for `\d+\.?\d*` (also `\d+\.?\d*%?` and `\d`), which succeeds
exactly when the string contains a digit. -/
def hasDigit (s : Str) : Bool := s.any isDigitChar

/-! ### Candidate tables and bounding boxes -/

/-- A bounding box `(x1, y1, x2, y2)`. -/
structure BBox where
  x1 : ℚ
  y1 : ℚ
  x2 : ℚ
  y2 : ℚ
deriving DecidableEq, Repr

/-- A detector-produced table dictionary: keys `type`, `page`, `region_id`,
`data`, `confidence`, `bbox` and, for text tables, `title` and
`description`. -/
structure PyTable where
  type : String
  page : ℕ
  regionId : ℕ
  data : List (List Str)
  confidence : ℚ
  bbox : BBox
  title : Str := []
  description : Str := []
deriving DecidableEq, Repr

/-- The `min_table_confidence` attribute set in `TableExtractor.__init__`
(0.7, written in normalised form so the kernel can evaluate comparisons). -/
def min_table_confidence : ℚ := mkRat 7 10

/-- The modular `TableExtractor._deduplicate_and_filter_tables` of
`table_extractor.py` (lines 1214-1216): despite its docstring it performs no
deduplication, only the confidence filter. -/
def deduplicateAndFilterTables (minConf : ℚ) (tables : List PyTable) : List PyTable :=
  tables.filter (fun t => minConf ≤ t.confidence)

/-- Area of the intersection of two boxes, as computed inside
`_bboxes_overlap` of `extractors.py`. -/
def overlapArea (b1 b2 : BBox) : ℚ :=
  max 0 (min b1.x2 b2.x2 - max b1.x1 b2.x1) *
    max 0 (min b1.y2 b2.y2 - max b1.y1 b2.y1)

/-- Signed area of a box, as computed inside `_bboxes_overlap`. -/
def boxArea (b : BBox) : ℚ := (b.x2 - b.x1) * (b.y2 - b.y1)

/-- Python `_bboxes_overlap` of `extractors.py`: the overlap is significant
when its area exceeds half the smaller box area. -/
def bboxesOverlap (b1 b2 : BBox) : Bool :=
  (1 / 2 : ℚ) * min (boxArea b1) (boxArea b2) < overlapArea b1 b2

/-- Insertion step of the stable descending-confidence sort. -/
def insertByConfDesc (t : PyTable) : List PyTable → List PyTable
  | [] => [t]
  | h :: r =>
    if h.confidence ≤ t.confidence then t :: h :: r else h :: insertByConfDesc t r

/-- Python `tables.sort` by confidence, reversed: a stable descending sort. -/
def sortByConfDesc (l : List PyTable) : List PyTable := l.foldr insertByConfDesc []

/-- The greedy keep-loop of `_deduplicate_and_filter_tables` in
`extractors.py`: keep a table unless it overlaps one already kept. -/
def greedyKeep (final : List PyTable) : List PyTable → List PyTable
  | [] => final
  | t :: rest =>
    if final.any (fun e => bboxesOverlap t.bbox e.bbox) then greedyKeep final rest
    else greedyKeep (final ++ [t]) rest

/-- The legacy `_deduplicate_and_filter_tables` of `extractors.py` (lines
1477-1503): sort by confidence descending, drop low-confidence tables, then
greedily drop tables overlapping an already kept one. -/
def extractorsDeduplicateAndFilterTables (minConf : ℚ) (tables : List PyTable) :
    List PyTable :=
  if tables.isEmpty then []
  else
    greedyKeep []
      ((sortByConfDesc tables).filter (fun t => minConf ≤ t.confidence))

/-- The page-level entry point `extract_tables_from_page` of
`table_extractor.py`.  The three geometry detectors consume the opaque `fitz`
page, so the page is modelled by the three detector output lists; the
function concatenates them and applies `_deduplicate_and_filter_tables`.  The
`config.get` guard is the boolean argument. -/
def extractTablesFromPage (extractTablesConfig : Bool)
    (bboxTables alignmentTables markerTables : List PyTable) : List PyTable :=
  if !extractTablesConfig then []
  else
    deduplicateAndFilterTables min_table_confidence
      (bboxTables ++ alignmentTables ++ markerTables)

/-! ### Marked-line detector -/

/-- One element of `page.get_drawings()`: an item type and the `start` and
`end` points of the drawing. -/
structure Drawing where
  dtype : String
  start : ℚ × ℚ
  endPoint : ℚ × ℚ
deriving DecidableEq, Repr

/-- A classified line segment produced by `_extract_table_lines`. -/
structure GridLine where
  start : ℚ × ℚ
  endPoint : ℚ × ℚ
  horizontal : Bool
  vertical : Bool
deriving DecidableEq, Repr

/-- Python `_extract_table_lines`: keep `'l'` drawings that are nearly
horizontal or nearly vertical (coordinate difference below 5). -/
def extractTableLines (drawings : List Drawing) : List GridLine :=
  drawings.filterMap (fun d =>
    if d.dtype = "l" then
      let isHorizontal : Bool := |d.start.2 - d.endPoint.2| < 5
      let isVertical : Bool := |d.start.1 - d.endPoint.1| < 5
      if isHorizontal || isVertical then
        some ⟨d.start, d.endPoint, isHorizontal, isVertical⟩
      else none
    else none)

/-- The grid dictionary built by `_build_grid_from_lines`. -/
structure GridStructure where
  horizontalLines : List GridLine
  verticalLines : List GridLine
  rows : ℕ
  cols : ℕ
deriving DecidableEq, Repr

/-- Python `_build_grid_from_lines`. -/
def buildGridFromLines (lines : List GridLine) : Option GridStructure :=
  if lines.isEmpty then none
  else
    let hLines := lines.filter (·.horizontal)
    let vLines := lines.filter (·.vertical)
    if 2 ≤ hLines.length ∧ 2 ≤ vLines.length then
      some ⟨hLines, vLines, hLines.length - 1, vLines.length - 1⟩
    else none

/-- Python `_extract_text_from_grid` of `table_extractor.py` (lines
1935-1939): the source returns the empty list unconditionally, so the page
argument is dropped here. -/
def extractTextFromGrid (_grid : GridStructure) : List (List Str) := []

/-- Python `_get_grid_bbox` of `table_extractor.py`: the zero box
("Simplified for modularity"). -/
def getGridBbox (_grid : GridStructure) : BBox := ⟨0, 0, 0, 0⟩

/-- Python `_extract_marked_tables`, with `page.get_drawings()` supplied as
the input list. -/
def extractMarkedTables (pageNum : ℕ) (drawings : List Drawing) : List PyTable :=
  let lines := extractTableLines drawings
  if !lines.isEmpty then
    match buildGridFromLines lines with
    | some grid =>
      let tableData := extractTextFromGrid grid
      if !tableData.isEmpty then
        [⟨"marked_table", pageNum, 0, tableData, 9 / 10, getGridBbox grid, [], []⟩]
      else []
    | none => []
  else []

/-! ### Confidence scoring -/

/-- Total number of cells of a row matrix. -/
def totalCellCount (tableData : List (List Str)) : ℕ :=
  (tableData.map List.length).sum

/-- Number of cells whose stripped content is non-empty. -/
def nonEmptyCellCount (tableData : List (List Str)) : ℕ :=
  (tableData.map (fun row => row.countP (fun cell => !(pyStrip cell).isEmpty))).sum

/-- Python `_calculate_table_confidence` of `table_extractor.py` (lines
1760-1788): the unweighted average of three factors (row-length consistency,
non-empty density, capped doubled numeric ratio).  The numeric test
`re.search(r'\d+\.?\d*', cell)` succeeds exactly when the cell contains a
digit. -/
def calculateTableConfidence (tableData : List (List Str)) : ℚ :=
  if tableData.isEmpty then 0
  else
    let colCounts := tableData.map List.length
    let factors1 : List ℚ :=
      if !colCounts.isEmpty then
        [if 0 < maxNat colCounts then
            (minNat colCounts : ℚ) / (maxNat colCounts : ℚ)
          else 0]
      else []
    let totalCells := totalCellCount tableData
    let density : ℚ :=
      if 0 < totalCells then (nonEmptyCellCount tableData : ℚ) / (totalCells : ℚ)
      else 0
    let numericContent := (tableData.map (fun row => row.countP hasDigit)).sum
    let numericFrac : ℚ :=
      if 0 < totalCells then (numericContent : ℚ) / (totalCells : ℚ) else 0
    let factors := (factors1 ++ [density]) ++ [min (numericFrac * 2) 1]
    if factors.isEmpty then 1 / 2 else factors.sum / (factors.length : ℚ)

/-- Number of matched entries of the `academic_patterns` library of
`_calculate_academic_table_confidence`, searched on the lower-cased joined
table text.  The six patterns are `\bet al\.`, `\(\d{4}\)`, the performance
suffixes, the `dat`/`model`/`method`/`approach` word patterns, `\d+\.?\d*%`,
and `\b[A-Z]{2,}\b`. -/
def academicPatternCount (allText : Str) : ℕ :=
  ([searchEtAl allText,
    searchYearParens allText,
    searchPerformanceSuffix allText,
    searchWordContaining
      [String.toList "dat", String.toList "model", String.toList "method",
       String.toList "approach"] allText,
    searchPercentage allText,
    searchCapsWord 2 none allText] : List Bool).countP id

/-- Python `_calculate_academic_table_confidence` of `table_extractor.py`
(lines 1324-1383): the unweighted average of four factors. -/
def calculateAcademicTableConfidence (tableData : List (List Str)) : ℚ :=
  if tableData.isEmpty then 0
  else
    let totalCells := totalCellCount tableData
    let completeness : ℚ :=
      if 0 < totalCells then (nonEmptyCellCount tableData : ℚ) / (totalCells : ℚ)
      else 0
    let factors1 : List ℚ := [completeness]
    let rowLengths := tableData.map List.length
    let factors2 :=
      factors1 ++
        (if !rowLengths.isEmpty then
          [if 0 < maxNat rowLengths then
              (minNat rowLengths : ℚ) / (maxNat rowLengths : ℚ)
            else 0]
         else [])
    let numericScore := (tableData.map (fun row => row.countP hasDigit)).sum
    let numericFrac : ℚ :=
      if 0 < totalCells then (numericScore : ℚ) / (totalCells : ℚ) else 0
    let factors3 := factors2 ++ [min (numericFrac * 2) 1]
    let allText := toLowerStr (joinWords (tableData.map joinWords))
    let academicScore : ℚ := (academicPatternCount allText : ℚ) * (15 / 100)
    let factors := factors3 ++ [min academicScore 1]
    if factors.isEmpty then 1 / 2 else factors.sum / (factors.length : ℚ)

/-- The `_calculate_table_confidence` of `extractors.py` (lines 1431-1456):
additive rewards, capped at 1. -/
def extractorsCalculateTableConfidence (tableData : List (List Str)) : ℚ :=
  if tableData.isEmpty then 0
  else
    let totalCells := totalCellCount tableData
    let score1 : ℚ := if 6 ≤ totalCells then 2 / 10 else 0
    let score2 := score1 + (if 3 ≤ tableData.length then 2 / 10 else 0)
    let colCounts := tableData.map List.length
    let score3 :=
      score2 + (if maxNat colCounts - minNat colCounts ≤ 1 then 3 / 10 else 0)
    let numericalCells := (tableData.map (fun row => row.countP searchNumberPattern)).sum
    -- `numerical_cells > total_cells * 0.3`, cross-multiplied
    let score4 :=
      score3 + (if 3 * totalCells < 10 * numericalCells then 3 / 10 else 0)
    min score4 1

/-- Claim C5's wording of the BBox-grid confidence: the sum of the four
independent additive rewards (at least 6 cells, at least 3 rows, column-count
spread at most 1, numeric cells above 30 percent), capped at 1.  Written from
the claim, to be compared with the source functions. -/
def c5ClaimConfidence (tableData : List (List Str)) : ℚ :=
  if tableData.isEmpty then 0
  else
    min
      ((if 6 ≤ totalCellCount tableData then (2 / 10 : ℚ) else 0) +
        (if 3 ≤ tableData.length then 2 / 10 else 0) +
        (if maxNat (tableData.map List.length) - minNat (tableData.map List.length) ≤ 1
          then 3 / 10 else 0) +
        (if 3 * totalCellCount tableData <
            10 * (tableData.map (fun row => row.countP searchNumberPattern)).sum
          then 3 / 10 else 0))
      1

/-! ### Word-token classifiers used by `_split_by_word_groups` -/

/-- Match of `^\d+\.?\d*[%]?$` on a word (`re.match` with a final anchor, so a
full-token parse): digits, an optional dot, optional digits, an optional
percent sign. -/
def isNumericTokenPct (w : Str) : Bool :=
  let d1 := runLen isDigitChar w 0
  if d1 = 0 then false
  else
    let r1 := w.drop d1
    let r2 := if r1.head? = some '.' then r1.tail else r1
    let r3 := r2.drop (runLen isDigitChar r2 0)
    let r4 := if r3.head? = some '%' then r3.tail else r3
    r4.isEmpty

/-- Prefix match (`re.match`, case-insensitive) of the technical-term
alternation `^(?:[A-Z]{2,6}(?:-\d+)?|[A-Z][a-zA-Z]*(?:[A-Z][a-zA-Z]*){1,3}|[A-Za-z]+[-_]?\d+(?:\.\d+)*)`.
Under `re.IGNORECASE` the first two alternatives reduce to "starts with two
letters", and the third to "letters, an optional single dash or underscore,
then a digit". -/
def matchTechnicalTerm (w : Str) : Bool :=
  (testAt isAlphaChar w 0 && testAt isAlphaChar w 1) ||
  (let L := runLen isAlphaChar w 0
   decide (0 < L) &&
   (let j := if testAt (fun c => c = '-' || c = '_') w L then L + 1 else L
    testAt isDigitChar w j))

/-- The `elif` chain of `_split_by_word_groups` deciding whether a column
boundary lies between `word` and `next`. -/
def wordBoundaryFlag (word next : Str) : Bool :=
  if isNumericTokenPct word && testAt isAlphaChar next 0 then true
  else if containsSub "et al.".toList word && !containsSub "et al.".toList next then true
  else if searchYearParens word && !searchYearParens next then true
  else if matchTechnicalTerm word && !matchTechnicalTerm next then true
  else false

/-- Boundary positions collected over `enumerate(words[:-1])`. -/
def findWordGroupBoundaries (words : List Str) : List ℕ :=
  (List.range (words.length - 1)).filterMap (fun i =>
    if wordBoundaryFlag (words.getD i []) (words.getD (i + 1) []) then some (i + 1)
    else none)

/-- Boundary selection of `_split_by_word_groups`: either the first
`target - 1` boundaries, or all of them plus evenly distributed extra
positions. -/
def selectBoundaries (words : List Str) (target : ℕ) (boundaries : List ℕ) : List ℕ :=
  if (target : ℤ) - 1 ≤ (boundaries.length : ℤ) then pyTakeI ((target : ℤ) - 1) boundaries
  else
    let remainingSplits : ℤ := (target : ℤ) - (boundaries.length : ℤ) - 1
    if 0 < remainingSplits then
      let wordsPerRemaining := words.length / (remainingSplits.toNat + 1)
      (List.range remainingSplits.toNat).foldl (fun acc i =>
        let pos := (i + 1) * wordsPerRemaining
        if pos < words.length ∧ ¬ acc.contains pos then acc ++ [pos] else acc)
        boundaries
    else boundaries

/-- Column construction from sorted boundaries (the `for boundary in
selected_boundaries` loop plus the final column). -/
def columnsFromBoundaries (words : List Str) (selected : List ℕ) : List Str :=
  let step := (sortNatAsc selected).foldl
    (fun (acc : List Str × ℕ) boundary =>
      if acc.2 < words.length then
        (acc.1 ++ [joinWords ((words.drop acc.2).take (boundary - acc.2))], boundary)
      else acc) ([], 0)
  if step.2 < words.length then step.1 ++ [joinWords (words.drop step.2)] else step.1

/-- Even word distribution fallback of `_split_by_word_groups`.  Natural
division models Python's `//`; the engine never calls this with a zero
target (Python would raise `ZeroDivisionError` there). -/
def evenColumns (words : List Str) (target : ℕ) : List Str :=
  ((List.range target).foldl (fun (acc : List Str × ℕ) i =>
    let colSize := words.length / target + (if i < words.length % target then 1 else 0)
    let endIdx := acc.2 + colSize
    if acc.2 < words.length then
      (acc.1 ++ [joinWords ((words.drop acc.2).take (min endIdx words.length - acc.2))],
        endIdx)
    else (acc.1 ++ [[]], acc.2)) ([], 0)).1

/-- The final `while len(columns) < target_columns: columns.append('')`. -/
def padColumns (cols : List Str) (target : ℕ) : List Str :=
  cols ++ List.replicate (target - cols.length) []

/-- Python `_split_by_word_groups` of `table_extractor.py` (lines
1527-1620). -/
def splitByWordGroups (line : Str) (targetColumns : ℕ) : List Str :=
  let words := pySplit line
  if words.isEmpty then []
  else if words.length ≤ targetColumns then padColumns words targetColumns
  else
    let boundaries := findWordGroupBoundaries words
    let columns :=
      if !boundaries.isEmpty then
        columnsFromBoundaries words (selectBoundaries words targetColumns boundaries)
      else evenColumns words targetColumns
    (padColumns columns targetColumns).take targetColumns

/-! ### Academic citation-numerical structure detection -/

/-- Python `str.strip(chars)`: drop the given characters from both ends. -/
def pyStripChars (chars : List Char) (s : Str) : Str :=
  ((s.dropWhile (chars.contains ·)).reverse.dropWhile (chars.contains ·)).reverse

/-- Full-token parse of `^\d+$`. -/
def isIntToken (w : Str) : Bool := !w.isEmpty && w.all isDigitChar

/-- Full-token parse of `^\d+\.\d+$`. -/
def isDecimalToken (w : Str) : Bool :=
  let d1 := runLen isDigitChar w 0
  decide (0 < d1) && testAt (· = '.') w d1 &&
  (let d2 := runLen isDigitChar w (d1 + 1)
   decide (0 < d2) && decide (w.length = d1 + 1 + d2))

/-- Full-token parse of `^\d+\.\d+%$`. -/
def isDecimalPctToken (w : Str) : Bool :=
  let d1 := runLen isDigitChar w 0
  decide (0 < d1) && testAt (· = '.') w d1 &&
  (let d2 := runLen isDigitChar w (d1 + 1)
   decide (0 < d2) && testAt (· = '%') w (d1 + 1 + d2) &&
   decide (w.length = d1 + 1 + d2 + 1))

/-- Full-token parse of `^\d+[eE][+-]?\d+$`. -/
def isSciToken (w : Str) : Bool :=
  let d1 := runLen isDigitChar w 0
  decide (0 < d1) && testAt (fun c => c = 'e' || c = 'E') w d1 &&
  (let j := if testAt (fun c => c = '+' || c = '-') w (d1 + 1) then d1 + 2 else d1 + 1
   let d2 := runLen isDigitChar w j
   decide (0 < d2) && decide (w.length = j + d2))

/-- Full-token parse of `^\d+\.\d+[eE][+-]?\d+$`. -/
def isDecimalSciToken (w : Str) : Bool :=
  let d1 := runLen isDigitChar w 0
  decide (0 < d1) && testAt (· = '.') w d1 &&
  (let d2 := runLen isDigitChar w (d1 + 1)
   decide (0 < d2) &&
   (let k := d1 + 1 + d2
    testAt (fun c => c = 'e' || c = 'E') w k &&
    (let j := if testAt (fun c => c = '+' || c = '-') w (k + 1) then k + 2 else k + 1
     let d3 := runLen isDigitChar w j
     decide (0 < d3) && decide (w.length = j + d3))))

/-- Python `_is_numerical_value`: strip `[]()%,` from both ends, then try the
five anchored numeric patterns. -/
def isNumericalValue (w : Str) : Bool :=
  let cleaned := pyStripChars "[]()%,".toList w
  isIntToken cleaned || isDecimalToken cleaned || isDecimalPctToken cleaned ||
    isSciToken cleaned || isDecimalSciToken cleaned

/-- The inner loop of `_find_academic_citation_numerical_structure`: the first
index `i` whose word is exactly `]`, with at least four following words of
which at least 80 percent are numerical. -/
def findCitationEndIdx (words : List Str) : Option ℕ :=
  (List.range words.length).find? (fun i =>
    decide (words.getD i [] = [']']) && decide (i < words.length - 4) &&
    (let remaining := words.drop (i + 1)
     -- `count >= len(remaining) * 0.8`, cross-multiplied to stay exact
     decide (remaining.length * 8 ≤ remaining.countP isNumericalValue * 10)))

/-- One entry of the `numerical_groups` list. -/
structure NumGroup where
  totalNumbers : ℕ
  groupSize : ℕ
  numGroups : ℕ
deriving DecidableEq, Repr

/-- Group-size choice for a trailing-number count: prefer divisor 4, then 3,
then 5, else a third of the count. -/
def pickGroupSize (n : ℕ) : ℕ :=
  if n % 4 = 0 then 4 else if n % 3 = 0 then 3 else if n % 5 = 0 then 5 else n / 3

/-- The dictionary returned by `_find_academic_citation_numerical_structure`. -/
structure AcademicStructureRaw where
  citationEndPatterns : List ℕ
  numericalGroups : List NumGroup
  columnCount : ℕ
  avgCitationPos : ℚ
deriving DecidableEq, Repr

/-- Python `_find_academic_citation_numerical_structure` of
`table_extractor.py` (lines 1050-1121). -/
def findAcademicCitationNumericalStructure (lines : List Str) :
    Option AcademicStructureRaw :=
  if lines.isEmpty then none
  else
    let step := lines.foldl (fun (acc : List ℕ × List NumGroup) line =>
      let words := pySplit line
      if words.length < 5 then acc
      else
        match findCitationEndIdx words with
        | none => acc
        | some i =>
          let remainingNumbers := words.drop (i + 1)
          let groups :=
            if 8 ≤ remainingNumbers.length then
              let gs := pickGroupSize remainingNumbers.length
              acc.2 ++ [⟨remainingNumbers.length, gs, remainingNumbers.length / gs⟩]
            else acc.2
          (acc.1 ++ [i], groups)) ([], [])
    let citationPatterns := step.1
    let numericalGroups := step.2
    if 2 ≤ citationPatterns.length then
      let posSum := citationPatterns.sum
      -- `abs(pos - sum/len) <= 1`, cross-multiplied to `|pos*len - sum| <= len`
      let consistent := citationPatterns.countP (fun pos =>
        natDist (pos * citationPatterns.length) posSum ≤ citationPatterns.length)
      -- `consistent >= len * 0.7`, cross-multiplied
      if citationPatterns.length * 7 ≤ consistent * 10 then
        if !numericalGroups.isEmpty then
          match
            pyMaxByNat (fun v => numericalGroups.countP (fun g => g.numGroups = v))
              (sortedUnique (numericalGroups.map (·.numGroups))) with
          | some mostCommon =>
            some ⟨citationPatterns, numericalGroups, mostCommon + 1,
              (posSum : ℚ) / (citationPatterns.length : ℚ)⟩
          | none => none
        else none
      else none
    else none

/-! ### Multi-space separator detection -/

/-- A positions-plus-column-count structure dictionary (shared shape of the
multi-space and positional structures). -/
structure PositionsStructure where
  positions : List ℕ
  columnCount : ℕ
deriving DecidableEq, Repr

/-- Centers of maximal whitespace runs of length at least 2
(`re.finditer(r'\s{2,}', line)`, taking `(start + end) // 2`). -/
def gapPositions (line : Str) : List ℕ :=
  (List.range line.length).filterMap (fun i =>
    if testAt isSpaceChar line i &&
        (decide (i = 0) || !testAt isSpaceChar line (i - 1)) then
      let L := runLen isSpaceChar line i
      if 2 ≤ L then some ((i + (i + L)) / 2) else none
    else none)

/-- The cluster-building step of `_find_multi_space_columns`: append `pos` to
the first cluster containing a position within the tolerance, else open a new
cluster. -/
def addPosToClusters (tol : ℕ) (pos : ℕ) : List (List ℕ) → List (List ℕ)
  | [] => [[pos]]
  | c :: rest =>
    if c.any (fun e => natDist pos e ≤ tol) then (c ++ [pos]) :: rest
    else c :: addPosToClusters tol pos rest

/-- The minimum-distance filter shared by the multi-space and positional
finders: keep the first position, and every later one at distance at least
`minDist` from the last kept one. -/
def minDistanceFilter (minDist : ℕ) (l : List ℕ) : List ℕ :=
  l.foldl (fun acc pos =>
    match acc.getLast? with
    | none => [pos]
    | some last => if minDist ≤ pos - last then acc ++ [pos] else acc) []

/-- Python `_find_multi_space_columns` of `table_extractor.py` (lines
820-892). -/
def findMultiSpaceColumns (lines : List Str) : Option PositionsStructure :=
  if lines.isEmpty then none
  else
    let allGapPositions := (lines.filter (fun l => !(pyStrip l).isEmpty)).map gapPositions
    if allGapPositions.isEmpty then none
    else
      let clusters := allGapPositions.flatten.foldl
        (fun cs p => addPosToClusters 4 p cs) []
      -- `len(cluster) >= max(1, len(lines) * 0.5)`, cross-multiplied
      let validClusters := clusters.filter
        (fun c => 1 ≤ c.length && lines.length ≤ 2 * c.length)
      if validClusters.isEmpty then none
      else
        let separatorPositions := validClusters.map
          (fun c => (sortNatAsc c).getD ((sortNatAsc c).length / 2) 0)
        let filtered := minDistanceFilter 8 (sortNatAsc separatorPositions)
        if 1 ≤ filtered.length then some ⟨filtered, filtered.length + 1⟩
        else none

/-! ### Tab separator detection -/

/-- Python `_find_tab_columns`: the dictionary only carries a column count. -/
def findTabColumns (lines : List Str) : Option ℕ :=
  let tabCounts := lines.map (countChar '\t')
  if tabCounts.isEmpty || maxNat tabCounts = 0 then none
  else
    match pyMaxByNat (fun v => tabCounts.countP (· = v)) (sortedUnique tabCounts) with
    | some mostCommon =>
      let consistentLines := tabCounts.countP (· = mostCommon)
      -- `consistent_lines >= len(lines) * 0.7`, cross-multiplied
      if lines.length * 7 ≤ consistentLines * 10 then some (mostCommon + 1)
      else none
    | none => none

/-! ### Pattern-based column detection

The ten `academic_patterns` regexes are matched with `re.IGNORECASE`; only the
start position of the first match is used.  Each matcher below decides whether
some match of its pattern begins at index `i`; the first-match start is then
the least such index, which is exactly what `matches[0].start()` returns. -/

/-- Word-status test at an index (characters past the end count as non-word). -/
def wordAt (s : Str) (i : ℕ) : Bool := testAt isWordChar s i

/-- Word boundary `\b` at position `p` of the string, `1 ≤ p`: the two
neighbouring characters differ in word-status (out-of-range counts as
non-word). -/
def boundaryAt (s : Str) (p : ℕ) : Bool := wordAt s (p - 1) != wordAt s p

/-- Case-insensitive prefix test against an already lower-case pattern. -/
def ciIsPrefixOf (pat : Str) (s : Str) : Bool := List.isPrefixOf pat (toLowerStr s)

/-- First unit-suffix class `[MKBGTmkμnpf]` under `re.IGNORECASE`. -/
def isUnit1Char (c : Char) : Bool :=
  ['m', 'k', 'b', 'g', 't', 'μ', 'n', 'p', 'f'].contains c.toLower

/-- Second unit-suffix class `[BWHzsFLVA]` under `re.IGNORECASE`. -/
def isUnit2Char (c : Char) : Bool :=
  ['b', 'w', 'h', 'z', 's', 'f', 'l', 'v', 'a'].contains c.toLower

/-- End index of the greedy numeric shape `\d+\.?\d*` starting at `i` (assumes
a digit at `i`). -/
def numShapeEnd (s : Str) (i : ℕ) : ℕ :=
  let j := i + runLen isDigitChar s i
  if testAt (· = '.') s j then j + 1 + runLen isDigitChar s (j + 1) else j

/-- Names of the `academic_patterns` regex library, in source order. -/
inductive PatternName where
  | authorReference
  | yearParentheses
  | datasetParentheses
  | percentage
  | numbersWithUnits
  | scientificNotation
  | technicalTerms
  | acronyms
  | versionedTerms
  | hyphenatedTerms
deriving DecidableEq, Repr

/-- Match of `^[A-Za-z][^0-9]*?\bet al\.` beginning at `i` (anchored, so only
at 0): a letter, a digit-free stretch, then `et al.` at a word boundary. -/
def matchAuthorReferenceAt (s : Str) (i : ℕ) : Bool :=
  decide (i = 0) && testAt isAlphaChar s 0 &&
  (List.range s.length).any (fun k =>
    decide (1 ≤ k) && ciIsPrefixOf "et al.".toList (s.drop k) && boundaryBefore s k &&
    ((s.drop 1).take (k - 1)).all (fun c => !isDigitChar c))

/-- Match of `\([^)]*\d{4}[^)]*\)` beginning at `i`: an opening parenthesis
whose first closing parenthesis comes after a run of four digits. -/
def matchYearParenthesesAt (s : Str) (i : ℕ) : Bool :=
  testAt (· = '(') s i &&
  (match (List.range s.length).find? (fun j => decide (i < j) && testAt (· = ')') s j) with
   | some close =>
     (List.range s.length).any (fun k =>
       decide (i < k) && decide (k + 4 ≤ close) && testAt isDigitChar s k &&
       testAt isDigitChar s (k + 1) && testAt isDigitChar s (k + 2) &&
       testAt isDigitChar s (k + 3))
   | none => false)

/-- Match of `\([^)]*(?:dataset|data|corpus|benchmark)[^)]*\)` beginning at
`i` (case-insensitive keyword inside the first parenthesised group). -/
def matchDatasetParenthesesAt (s : Str) (i : ℕ) : Bool :=
  testAt (· = '(') s i &&
  (match (List.range s.length).find? (fun j => decide (i < j) && testAt (· = ')') s j) with
   | some close =>
     let inner := (s.drop (i + 1)).take (close - (i + 1))
     [String.toList "dataset", String.toList "data", String.toList "corpus",
      String.toList "benchmark"].any (fun key => containsSub key (toLowerStr inner))
   | none => false)

/-- Trailing part of `\d+\.?\d*[MKBGTmkμnpf]?[BWHzsFLVA]?\b` after the numeric
shape ends at `e`: an optional unit character from each class, then a word
boundary. -/
def numUnitsTailOk (s : Str) (e : ℕ) : Bool :=
  boundaryAt s e ||
  (testAt isUnit1Char s e &&
    (boundaryAt s (e + 1) ||
     (testAt isUnit2Char s (e + 1) && boundaryAt s (e + 2)))) ||
  (testAt isUnit2Char s e && boundaryAt s (e + 1))

/-- Match of `\d+\.?\d*[MKBGTmkμnpf]?[BWHzsFLVA]?\b` beginning at `i`.  Both
the dotted and the dot-free end of the numeric shape are candidate match
ends (the regex can backtrack over `\.?`); shorter digit runs end between two
digits and can never reach a boundary. -/
def matchNumbersWithUnitsAt (s : Str) (i : ℕ) : Bool :=
  testAt isDigitChar s i &&
  (let j := i + runLen isDigitChar s i
   if testAt (· = '.') s j then
     numUnitsTailOk s (j + 1 + runLen isDigitChar s (j + 1)) || numUnitsTailOk s j
   else numUnitsTailOk s j)

/-- Exponent tail `[eE][+-]?\d+` at position `e`. -/
def sciTailOk (s : Str) (e : ℕ) : Bool :=
  testAt (fun c => c = 'e' || c = 'E') s e &&
  (let j := if testAt (fun c => c = '+' || c = '-') s (e + 1) then e + 2 else e + 1
   decide (0 < runLen isDigitChar s j))

/-- Match of `\d+\.?\d*[eE][+-]?\d+` beginning at `i`. -/
def matchScientificNotationAt (s : Str) (i : ℕ) : Bool :=
  testAt isDigitChar s i &&
  (let j := i + runLen isDigitChar s i
   if testAt (· = '.') s j then
     sciTailOk s (j + 1 + runLen isDigitChar s (j + 1)) || sciTailOk s j
   else sciTailOk s j)

/-- Match of `\b[A-Z][a-zA-Z]*(?:[A-Z][a-zA-Z]*){1,3}\b` under `IGNORECASE`
beginning at `i`: the alternating groups collapse to any maximal letter run
of length at least 2 delimited by word boundaries. -/
def matchTechnicalTermsAt (s : Str) (i : ℕ) : Bool :=
  testAt isAlphaChar s i && boundaryBefore s i &&
  (let L := runLen isAlphaChar s i
   decide (2 ≤ L) && !wordAt s (i + L))

/-- Match of `\b[A-Z]{2,6}\b(?:-\d+)?` under `IGNORECASE` beginning at `i`:
a maximal letter run of length 2 to 6 delimited by word boundaries. -/
def matchAcronymsAt (s : Str) (i : ℕ) : Bool :=
  testAt isAlphaChar s i && boundaryBefore s i &&
  (let L := runLen isAlphaChar s i
   decide (2 ≤ L) && decide (L ≤ 6) && !wordAt s (i + L))

/-- Match of `\b[A-Za-z]+[-_]?\d+(?:\.\d+)*\b` beginning at `i`: letters, an
optional dash or underscore, then digits whose end sits at a word boundary
(a following dot is itself a boundary, so the optional extensions never
change matchability). -/
def matchVersionedTermsAt (s : Str) (i : ℕ) : Bool :=
  testAt isAlphaChar s i && boundaryBefore s i &&
  (let L := runLen isAlphaChar s i
   let j := if testAt (fun c => c = '-' || c = '_') s (i + L) then i + L + 1 else i + L
   let D := runLen isDigitChar s j
   decide (0 < D) && !wordAt s (j + D))

/-- One `-[A-Za-z]+` group starting at `p`, returning the end position. -/
def hyphenGroupEnd (s : Str) (p : ℕ) : Option ℕ :=
  if testAt (· = '-') s p && decide (0 < runLen isAlphaChar s (p + 1)) then
    some (p + 1 + runLen isAlphaChar s (p + 1))
  else none

/-- Match of `\b[A-Za-z]+(?:-[A-Za-z]+){1,3}\b` beginning at `i`: a letter run
and one to three dash-joined letter runs, ending at a word boundary. -/
def matchHyphenatedTermsAt (s : Str) (i : ℕ) : Bool :=
  testAt isAlphaChar s i && boundaryBefore s i &&
  (match hyphenGroupEnd s (i + runLen isAlphaChar s i) with
   | none => false
   | some p2 =>
     !wordAt s p2 ||
     (match hyphenGroupEnd s p2 with
      | none => false
      | some p3 =>
        !wordAt s p3 ||
        (match hyphenGroupEnd s p3 with
         | none => false
         | some p4 => !wordAt s p4)))

/-- Dispatch of the ten `academic_patterns` matchers. -/
def patternMatchAt (p : PatternName) (s : Str) (i : ℕ) : Bool :=
  match p with
  | .authorReference => matchAuthorReferenceAt s i
  | .yearParentheses => matchYearParenthesesAt s i
  | .datasetParentheses => matchDatasetParenthesesAt s i
  | .percentage => percentMatchAt s i
  | .numbersWithUnits => matchNumbersWithUnitsAt s i
  | .scientificNotation => matchScientificNotationAt s i
  | .technicalTerms => matchTechnicalTermsAt s i
  | .acronyms => matchAcronymsAt s i
  | .versionedTerms => matchVersionedTermsAt s i
  | .hyphenatedTerms => matchHyphenatedTermsAt s i

/-- Start position of the first match of a pattern (`matches[0].start()`). -/
def patternFirstStart (p : PatternName) (line : Str) : Option ℕ :=
  (List.range line.length).find? (fun i => patternMatchAt p line i)

/-- The `academic_patterns` names in their source (dictionary) order. -/
def allPatternNames : List PatternName :=
  [.authorReference, .yearParentheses, .datasetParentheses, .percentage,
   .numbersWithUnits, .scientificNotation, .technicalTerms, .acronyms,
   .versionedTerms, .hyphenatedTerms]

/-- One surviving entry of the pattern-based structure.  The source stores
the average first-match position `sum(positions) / len(positions)`; it is
represented here exactly by the pair of `positionSum` and `frequency`
(the list of positions is never empty when an entry is built). -/
structure PatternInfo where
  name : PatternName
  positionSum : ℕ
  frequency : ℕ
deriving DecidableEq, Repr

/-- The average first-match position of a surviving pattern. -/
def PatternInfo.avgPosition (p : PatternInfo) : ℚ :=
  (p.positionSum : ℚ) / (p.frequency : ℚ)

/-- Insertion step of the stable ascending sort by average position; the
comparison `sum1/freq1 <= sum2/freq2` is cross-multiplied (frequencies are
positive). -/
def insertPatternAsc (x : PatternInfo) : List PatternInfo → List PatternInfo
  | [] => [x]
  | h :: t =>
    if x.positionSum * h.frequency ≤ h.positionSum * x.frequency then x :: h :: t
    else h :: insertPatternAsc x t

/-- Python `consistent_patterns.sort(key avg_position)`: stable ascending. -/
def sortPatternInfoAsc (l : List PatternInfo) : List PatternInfo :=
  l.foldr insertPatternAsc []

/-- The dictionary returned by `_find_pattern_based_columns`. -/
structure PatternStructure where
  patterns : List PatternInfo
  columnCount : ℕ
deriving DecidableEq, Repr

/-- Python `_find_pattern_based_columns` of `table_extractor.py` (lines
910-972): keep patterns matched in at least half the lines (and at least 2),
ordered by average first-match position. -/
def findPatternBasedColumns (lines : List Str) : Option PatternStructure :=
  let consistent := allPatternNames.filterMap (fun name =>
    let positions := lines.filterMap (fun line => patternFirstStart name line)
    -- `len(positions) >= max(2, len(lines) * 0.5)`, cross-multiplied
    if 2 ≤ positions.length && lines.length ≤ 2 * positions.length then
      some (⟨name, positions.sum, positions.length⟩ : PatternInfo)
    else none)
  if !consistent.isEmpty then
    let sorted := sortPatternInfoAsc consistent
    some ⟨sorted, sorted.length + 1⟩
  else none

/-! ### Positional column detection -/

/-- Python `_find_positional_columns` of `table_extractor.py` (lines
974-1048). -/
def findPositionalColumns (lines : List Str) : Option PositionsStructure :=
  if lines.isEmpty then none
  else
    let nonEmptyLines := lines.filter (fun l => !(pyStrip l).isEmpty)
    if nonEmptyLines.isEmpty then none
    else
      let maxLength := maxNat (nonEmptyLines.map List.length)
      if maxLength < 10 then none
      else
        let totalLines := nonEmptyLines.length
        let charDensity := fun i =>
          nonEmptyLines.countP (fun line => testAt (fun c => !isSpaceChar c) line i)
        let spaceDensity := fun i =>
          nonEmptyLines.countP (fun line => testAt isSpaceChar line i)
        -- `space_ratio >= 0.6`, `char_ratio <= 0.3` and
        -- `sum(window)/7 >= total_lines * 0.5`, each cross-multiplied
        let separatorCandidates := (List.range' 5 (maxLength - 10)).filter (fun i =>
          decide (6 * totalLines ≤ 10 * spaceDensity i) &&
          decide (10 * charDensity i ≤ 3 * totalLines) &&
          decide (7 * totalLines ≤ 2 *
            ((List.range' (i - 3) (min (i + 4) maxLength - (i - 3))).map
              spaceDensity).sum))
        if separatorCandidates.isEmpty then none
        else
          let separatorRegions := separatorCandidates.foldl (fun acc c =>
            match acc.getLast? with
            | none => [[c]]
            | some lastRegion =>
              match lastRegion.getLast? with
              | none => acc.dropLast ++ [[c]]
              | some lastC =>
                if c - lastC ≤ 3 then acc.dropLast ++ [lastRegion ++ [c]]
                else acc ++ [[c]]) []
          let centers := separatorRegions.map (fun r => r.getD (r.length / 2) 0)
          let separatorPositions := minDistanceFilter 8 centers
          if 1 ≤ separatorPositions.length then
            some ⟨separatorPositions, separatorPositions.length + 1⟩
          else none

/-! ### Strategy scoring and selection -/

/-- Python `_estimate_column_count_from_words`. -/
def estimateColumnCountFromWords (lines : List Str) : ℕ :=
  if lines.isEmpty then 2
  else
    let wordCounts := lines.map (fun l => (pySplit l).length)
    if !wordCounts.isEmpty then
      -- the average `sum/len` is compared (and floored) in cross-multiplied
      -- integer form: `avg <= k` is `sum <= k * len`, `int(avg / 3)` is
      -- `sum / (3 * len)`
      let s := wordCounts.sum
      let n := wordCounts.length
      if s ≤ 4 * n then 2
      else if s ≤ 8 * n then 3
      else if s ≤ 12 * n then 4
      else min 5 (s / (3 * n))
    else 2

/-- The column-structure dictionary chosen by
`_analyze_table_column_structure` (the `avg_citation_pos` key is not copied
into the academic structure there). -/
inductive ColStructure where
  | academicCitationNumerical (citationEndPatterns : List ℕ)
      (numericalGroups : List NumGroup) (columnCount : ℕ)
  | multiSpace (positions : List ℕ) (columnCount : ℕ)
  | positional (positions : List ℕ) (columnCount : ℕ)
  | tab (columnCount : ℕ)
  | pattern (patterns : List PatternInfo) (columnCount : ℕ)
  | wordBased (columnCount : ℕ)
deriving DecidableEq, Repr

/-- Whether a chosen structure is the academic citation-numerical one. -/
def ColStructure.isAcademic : ColStructure → Bool
  | .academicCitationNumerical _ _ _ => true
  | _ => false

/-- A scored strategy entry. -/
structure Strategy where
  score : ℕ
  struct : ColStructure
deriving DecidableEq, Repr

/-- The strategy list built by `_analyze_table_column_structure`, in source
order: academic citation-numerical (computed over the lines containing `]`),
multi-space, positional, tab, pattern. -/
def candidateStrategies (nonEmptyLines : List Str) : List Strategy :=
  let s0 : List Strategy :=
    let dataRows := nonEmptyLines.filter (fun l => l.contains ']')
    if !dataRows.isEmpty then
      match findAcademicCitationNumericalStructure dataRows with
      | some a =>
        [⟨10, .academicCitationNumerical a.citationEndPatterns a.numericalGroups
            a.columnCount⟩]
      | none => []
    else []
  let s1 : List Strategy :=
    match findMultiSpaceColumns nonEmptyLines with
    | some m =>
      [⟨m.positions.length * 2 +
          (if 2 ≤ m.columnCount ∧ m.columnCount ≤ 15 then 5 else 0),
        .multiSpace m.positions m.columnCount⟩]
    | none => []
  let s2 : List Strategy :=
    match findPositionalColumns nonEmptyLines with
    | some p =>
      [⟨p.positions.length +
          (if 2 ≤ p.columnCount ∧ p.columnCount ≤ 15 then 3 else 0),
        .positional p.positions p.columnCount⟩]
    | none => []
  let s3 : List Strategy :=
    match findTabColumns nonEmptyLines with
    | some cc => [⟨4 + (if 2 ≤ cc ∧ cc ≤ 15 then 2 else 0), .tab cc⟩]
    | none => []
  let s4 : List Strategy :=
    match findPatternBasedColumns nonEmptyLines with
    | some p =>
      [⟨p.patterns.length +
          (if 2 ≤ p.columnCount ∧ p.columnCount ≤ 15 then 1 else 0),
        .pattern p.patterns p.columnCount⟩]
    | none => []
  s0 ++ s1 ++ s2 ++ s3 ++ s4

/-- The non-empty-line filter of `_analyze_table_column_structure`
(`line.strip() and len(line.strip()) > 5`). -/
def usableLines (lines : List Str) : List Str :=
  lines.filter (fun l => !(pyStrip l).isEmpty && 5 < (pyStrip l).length)

/-- Python `_analyze_table_column_structure` of `table_extractor.py` (lines
711-818): score the five strategies, choose the best (Python `max` keeps the
first maximal entry, so ties resolve in the source order above), and fall
back to word-based splitting. -/
def analyzeTableColumnStructure (lines : List Str) : Option ColStructure :=
  if lines.isEmpty then none
  else
    let nonEmptyLines := usableLines lines
    if nonEmptyLines.length < 2 then none
    else
      match pyMaxByNat Strategy.score (candidateStrategies nonEmptyLines) with
      | some best => some best.struct
      | none => some (.wordBased (estimateColumnCountFromWords nonEmptyLines))

/-! ### Row-splitting under a chosen structure -/

/-- Python `range(0, len(l), size)` chunking.  A zero size would raise
`ValueError` in Python; it cannot arise from the structures built above
(group sizes are always at least 2), and is mapped to the empty list. -/
def pyChunk (size : ℕ) : List α → List (List α)
  | [] => []
  | x :: xs =>
    if h : size = 0 then []
    else (x :: xs).take size :: pyChunk size ((x :: xs).drop size)
termination_by l => l.length
decreasing_by
  simp [List.length_drop]
  omega

/-- Python `_split_by_positions` of `table_extractor.py` (lines 1415-1442). -/
def splitByPositions (line : Str) (positions : List ℕ) : List Str :=
  if positions.isEmpty || (pyStrip line).isEmpty then
    if !(pyStrip line).isEmpty then [pyStrip line] else []
  else
    let step := (sortNatAsc positions).foldl (fun (acc : List Str × ℕ) pos =>
      if pos < line.length then
        let columnText := pyStrip ((line.drop acc.2).take (pos - acc.2))
        let cols := if !columnText.isEmpty then acc.1 ++ [columnText] else acc.1
        (cols, pos + runLen isSpaceChar line pos)
      else acc) ([], 0)
    let columns :=
      if step.2 < line.length then
        let finalColumn := pyStrip (line.drop step.2)
        if !finalColumn.isEmpty then step.1 ++ [finalColumn] else step.1
      else step.1
    if !columns.isEmpty then columns else [pyStrip line]

/-- Python `_split_academic_citation_numerical` of `table_extractor.py`
(lines 1164-1212), given the structure's `numerical_groups` and
`column_count` entries. -/
def splitAcademicCitationNumerical (line : Str) (numericalGroups : List NumGroup)
    (columnCount : ℕ) : List Str :=
  let words := pySplit line
  if words.isEmpty then []
  else
    match (List.range words.length).find? (fun i =>
        decide (words.getD i [] = [']']) && decide (i < words.length - 1)) with
    | some citationEndIdx =>
      let methodName := joinWords (words.take (citationEndIdx + 1))
      let remainingNumbers := words.drop (citationEndIdx + 1)
      let groupSize :=
        if !numericalGroups.isEmpty then
          let groupSizes := numericalGroups.map NumGroup.groupSize
          (pyMaxByNat (fun v => groupSizes.countP (· = v))
            (sortedUnique groupSizes)).getD 4
        else 4
      methodName :: (pyChunk groupSize remainingNumbers).filterMap
        (fun g => if !g.isEmpty then some (joinWords g) else none)
    | none => splitByWordGroups line columnCount

/-! ### Classifier regex translations

These scanners translate the remaining searched regexes of
`table_extractor.py`; the word-boundary conventions are as above. -/

/-- Literal occurrence test at a position. -/
def litAt (lit : Str) (s : Str) (i : ℕ) : Bool := List.isPrefixOf lit (s.drop i)

/-- Search for `\b CLASS{lo,hi} \b`: a maximal run of `cls` characters of
admissible length, word boundaries on both sides. -/
def searchClassWordRange (cls : Char → Bool) (lo hi : ℕ) (s : Str) : Bool :=
  (List.range s.length).any (fun i =>
    testAt cls s i && boundaryBefore s i &&
    (let L := runLen cls s i
     decide (lo ≤ L) && decide (L ≤ hi) && !wordAt s (i + L)))

/-- Search for `\b[A-Z][a-z]{lo,hi}\b`: a capital followed by a bounded
maximal lowercase run, delimited by word boundaries. -/
def searchCapLowerWord (lo hi : ℕ) (s : Str) : Bool :=
  (List.range s.length).any (fun i =>
    testAt isUpperChar s i && boundaryBefore s i &&
    (let l := runLen isLowerChar s (i + 1)
     decide (lo ≤ l) && decide (l ≤ hi) && !wordAt s (i + 1 + l)))

/-- Search for the CamelCase shape `\b[A-Z][a-z]+[A-Z][a-z]*\b`. -/
def searchCamelCase (s : Str) : Bool :=
  (List.range s.length).any (fun i =>
    testAt isUpperChar s i && boundaryBefore s i &&
    (let l1 := runLen isLowerChar s (i + 1)
     decide (1 ≤ l1) && testAt isUpperChar s (i + 1 + l1) &&
     !wordAt s (i + 2 + l1 + runLen isLowerChar s (i + 2 + l1))))

/-- Search for `\b\w+[-_]\w+\b`: a word run containing a dash or an
underscore separator with word characters on both sides. -/
def searchHyphenUnderscoreWord (s : Str) : Bool :=
  (List.range s.length).any (fun i =>
    testAt isWordChar s i && boundaryBefore s i &&
    (let R := runLen isWordChar s i
     (List.range (R + 1)).any (fun d =>
       decide (1 ≤ d) && testAt (fun c => c = '-' || c = '_') s (i + d) &&
       wordAt s (i + d + 1))))

/-- Search for `\b[A-Za-z]+-[A-Za-z]+\b`. -/
def searchHyphenatedPair (s : Str) : Bool :=
  (List.range s.length).any (fun i =>
    testAt isAlphaChar s i && boundaryBefore s i &&
    (let L1 := runLen isAlphaChar s i
     testAt (· = '-') s (i + L1) &&
     (let L2 := runLen isAlphaChar s (i + L1 + 1)
      decide (1 ≤ L2) && !wordAt s (i + L1 + 1 + L2))))

/-- One `\s+ CLASS{lo,hi} \b` repetition starting at `p`, returning the end. -/
def repWordNext (cls : Char → Bool) (lo hi : ℕ) (s : Str) (p : ℕ) : Option ℕ :=
  let w := runLen isSpaceChar s p
  if 1 ≤ w then
    let l := runLen cls s (p + w)
    if lo ≤ l ∧ l ≤ hi ∧ !wordAt s (p + w + l) then some (p + w + l) else none
  else none

/-- Search for `\b CLASS{lo,hi} \b (?:\s+ CLASS{lo,hi} \b){2,}` (used with
the lowercase and the capitals classes by `_looks_like_header_row`). -/
def searchRepeatedWords (cls : Char → Bool) (lo hi : ℕ) (s : Str) : Bool :=
  (List.range s.length).any (fun i =>
    testAt cls s i && boundaryBefore s i &&
    (let l := runLen cls s i
     decide (lo ≤ l) && decide (l ≤ hi) && !wordAt s (i + l) &&
     (match repWordNext cls lo hi s (i + l) with
      | some p1 => (repWordNext cls lo hi s p1).isSome
      | none => false)))

/-- Search for `\b[a-z]{2,6}\b(?:\s+[a-z]{2,6}\b){1,4}`: one repetition
suffices for a match to exist. -/
def searchShortLowerSeq (s : Str) : Bool :=
  (List.range s.length).any (fun i =>
    testAt isLowerChar s i && boundaryBefore s i &&
    (let l := runLen isLowerChar s i
     decide (2 ≤ l) && decide (l ≤ 6) && !wordAt s (i + l) &&
     (repWordNext isLowerChar 2 6 s (i + l)).isSome))

/-- Search for `\b[a-z]\d+\b|\b\w+[-_]?\d+\b` (applied to lower-cased text).
The second alternative matches a word run of length at least 2 ending in a
digit, or a word run followed by a dash and digits ending at a boundary. -/
def searchMathTerm (s : Str) : Bool :=
  ((List.range s.length).any (fun i =>
    testAt isLowerChar s i && boundaryBefore s i &&
    (let D := runLen isDigitChar s (i + 1)
     decide (1 ≤ D) && !wordAt s (i + 1 + D)))) ||
  ((List.range s.length).any (fun i =>
    testAt isWordChar s i && boundaryBefore s i &&
    (let R := runLen isWordChar s i
     (decide (2 ≤ R) && testAt isDigitChar s (i + R - 1)) ||
     (testAt (· = '-') s (i + R) &&
      (let D := runLen isDigitChar s (i + R + 1)
       decide (1 ≤ D) && !wordAt s (i + R + 1 + D))))))

/-- Search for `\b[A-Z]{2,}\s+\d{4}\b` (with `exactFour`) or
`\b[A-Z]{2,}\s+\d+\b` (without): capitals, whitespace, digits, boundary. -/
def searchCapsThenDigits (exactFour : Bool) (s : Str) : Bool :=
  (List.range s.length).any (fun i =>
    testAt isUpperChar s i && boundaryBefore s i &&
    (let L := runLen isUpperChar s i
     decide (2 ≤ L) &&
     (let w := runLen isSpaceChar s (i + L)
      decide (1 ≤ w) &&
      (let D := runLen isDigitChar s (i + L + w)
       (if exactFour then decide (D = 4) else decide (1 ≤ D)) &&
       !wordAt s (i + L + w + D)))))

/-- Tail of `\b[A-Za-z]+(?:[-_][A-Za-z]+)*\b` after a letter run ending at
`p`: either a word boundary, or a dash or underscore followed by more
letters. -/
def flexDashTailOk (s : Str) : ℕ → ℕ → Bool
  | 0, p => !wordAt s p
  | fuel + 1, p =>
    !wordAt s p ||
    (testAt (fun c => c = '-' || c = '_') s p &&
     decide (0 < runLen isAlphaChar s (p + 1)) &&
     flexDashTailOk s fuel (p + 1 + runLen isAlphaChar s (p + 1)))

/-- Search for `\b[A-Za-z]+(?:[-_][A-Za-z]+)*\b`. -/
def searchFlexibleDashWord (s : Str) : Bool :=
  (List.range s.length).any (fun i =>
    testAt isAlphaChar s i && boundaryBefore s i &&
    flexDashTailOk s s.length (i + runLen isAlphaChar s i))

/-- A letter word of length at least 2 with word boundaries, the
case-insensitive reading of `\b[A-Z]{2,}\b`. -/
def ciCapsWordAt (s : Str) (i : ℕ) : Bool :=
  testAt isAlphaChar s i && boundaryBefore s i &&
  decide (2 ≤ runLen isAlphaChar s i) && !wordAt s (i + runLen isAlphaChar s i)

/-- Search for `\b[A-Z]{2,}\b.*\b[A-Z]{2,}\b` under `IGNORECASE`. -/
def searchDoubleCapsCi (s : Str) : Bool :=
  (List.range s.length).any (fun i =>
    ciCapsWordAt s i &&
    ((List.range s.length).any (fun j =>
      decide (i + runLen isAlphaChar s i ≤ j) && ciCapsWordAt s j)))

/-- Search for `\d+\s+\d+\s+\d+`. -/
def searchThreeNumbers (s : Str) : Bool :=
  (List.range s.length).any (fun i =>
    testAt isDigitChar s i &&
    (let a := i + runLen isDigitChar s i
     let w1 := runLen isSpaceChar s a
     decide (1 ≤ w1) && testAt isDigitChar s (a + w1) &&
     (let b := a + w1 + runLen isDigitChar s (a + w1)
      let w2 := runLen isSpaceChar s b
      decide (1 ≤ w2) && testAt isDigitChar s (b + w2))))

/-- Search for `\[.*?\]|\(\d{4}\)` (the lines here contain no newline, so
the dot classes are unrestricted). -/
def searchBracketOrYear (s : Str) : Bool :=
  ((List.range s.length).any (fun i =>
    testAt (· = '[') s i &&
    ((List.range s.length).any (fun j => decide (i < j) && testAt (· = ']') s j)))) ||
  searchYearParens s

/-- Prefix match `^[A-Za-z][\w\-]+`: a letter followed by at least one word
character or dash. -/
def matchMethodNameStart (s : Str) : Bool :=
  testAt isAlphaChar s 0 && testAt (fun c => isWordChar c || c = '-') s 1

/-- Fuelled scanner for `len(re.findall(r'\d+\.?\d*', s))`: non-overlapping
matches consume a digit run, then a dot (if present) with the digit run
after it.  The fuel is the string length, and every step consumes at least
one character. -/
def countNumberTokensAux : ℕ → Str → ℕ
  | 0, _ => 0
  | _, [] => 0
  | fuel + 1, c :: cs =>
    if isDigitChar c then
      let rest1 := cs.drop ((cs.takeWhile isDigitChar).length)
      let rest2 :=
        match rest1 with
        | '.' :: r => r.drop ((r.takeWhile isDigitChar).length)
        | _ => rest1
      1 + countNumberTokensAux fuel rest2
    else countNumberTokensAux fuel cs

/-- Number of `\d+\.?\d*` tokens found by `re.findall`. -/
def countNumberTokens (s : Str) : ℕ := countNumberTokensAux s.length s

/-! ### Line and row classifiers -/

/-- Python `_looks_like_table_row` of `table_extractor.py` (lines 572-589). -/
def looksLikeTableRow (line : Str) : Bool :=
  if (pyStrip line).isEmpty || (pyStrip line).length < 5 then false
  else
    let wc := (pySplit line).length
    let indicators : List Bool :=
      [decide (2 ≤ countNumberTokens line),
       matchMethodNameStart (pyStrip line),
       searchBracketOrYear line,
       searchPercentage line,
       decide (3 ≤ wc) && decide (wc ≤ 20),
       line.any isAlphaChar && hasDigit line]
    2 ≤ indicators.countP id

/-- Python `_looks_like_table_content` of `table_extractor.py` (lines
591-666). -/
def looksLikeTableContent (line : Str) (existingLines : List Str) : Bool :=
  if (pyStrip line).isEmpty then false
  else
    let wordCount := (pySplit line).length
    if existingLines.isEmpty then 2 ≤ wordCount
    else
      let hasNumbers := hasDigit line
      let hasParentheses := line.contains '(' && line.contains ')'
      let hasAbbreviations := searchCapsWord 2 none line
      let hasCitations := searchEtAl line || searchYearParens line
      let hasStructuredData := hasDigit line
      let indicators : List Bool :=
        [hasNumbers,
         hasAbbreviations,
         hasCitations,
         hasStructuredData,
         decide (10 * (pySplit line).dedup.length < 7 * wordCount),
         searchCapsWord 2 (some 4) line,
         searchHyphenatedPair line,
         searchShortLowerSeq (toLowerStr line),
         searchPerformanceSuffix (toLowerStr line),
         searchMathTerm (toLowerStr line)]
      if 2 ≤ indicators.countP id then true
      else
        -- `abs(word_count - sum/len) <= 6`, cross-multiplied to
        -- `|word_count * len - sum| <= 6 * len`
        let wcSum := (existingLines.map (fun l => (pySplit l).length)).sum
        let wordCountSimilarity :=
          natDist (wordCount * existingLines.length) wcSum ≤ 6 * existingLines.length
        let hasSimilarPatterns :=
          (hasNumbers && existingLines.any hasDigit) ||
          (hasParentheses && existingLines.any (fun l => l.contains '(')) ||
          (hasCitations && existingLines.any (fun l => searchEtAl l || searchYearParens l)) ||
          (hasStructuredData && existingLines.any hasDigit) ||
          (hasAbbreviations && existingLines.any (searchCapsWord 2 (some 4)))
        wordCountSimilarity || hasSimilarPatterns

/-- Python `_looks_like_header_row` of `table_extractor.py` (lines
1622-1681). -/
def looksLikeHeaderRow (line : Str) : Bool :=
  let lineLower := toLowerStr line
  let primaryMatches :=
    ([searchClassWordRange isLowerChar 4 12 line,
      searchCapsThenDigits true line,
      searchCamelCase line,
      searchHyphenUnderscoreWord line,
      searchCapLowerWord 2 8 line] : List Bool).countP id
  let metricMatches :=
    ([searchRepeatedWords isLowerChar 2 4 line,
      searchRepeatedWords isUpperChar 2 4 line] : List Bool).countP id
  let hasDatasetPattern := searchCapsThenDigits true line || searchCapsThenDigits false line
  let words := pySplit lineLower
  let isRepetitive :=
    if words.isEmpty then false
    else decide (10 * words.dedup.length < 6 * words.length)
  let isPrimaryHeader :=
    (decide (1 ≤ primaryMatches) || hasDatasetPattern) && !isRepetitive &&
    (decide (metricMatches ≤ primaryMatches) || decide (metricMatches ≤ 2))
  let totalMatches := primaryMatches + metricMatches
  let isTraditionalHeader :=
    (decide (2 ≤ totalMatches) && !isRepetitive) ||
    ([String.toList "parameters (m)", String.toList "flops", String.toList "fps",
      String.toList "throughput"].any (fun p => containsSub p lineLower))
  isPrimaryHeader || isTraditionalHeader

/-- Python `_looks_like_table_header_line` of `table_extractor.py` (lines
458-485): at least two indicator patterns and a length between 10 and 200. -/
def looksLikeTableHeaderLine (line : Str) : Bool :=
  let lineLower := toLowerStr line
  let indicatorCount :=
    ([searchPerformanceSuffix lineLower,
      searchFlexibleDashWord lineLower,
      searchWordContaining
        [String.toList "dat", String.toList "corp", String.toList "bench"] lineLower,
      searchWordContaining
        [String.toList "result", String.toList "perform", String.toList "score",
         String.toList "metric"] lineLower,
      searchWordContaining [String.toList "param", String.toList "flop"] lineLower,
      searchDoubleCapsCi lineLower,
      searchThreeNumbers lineLower] : List Bool).countP id
  decide (2 ≤ indicatorCount) && decide (10 ≤ line.length) && decide (line.length ≤ 200)

/-! ### Table-title detection

Python `_detect_table_title` tries seventeen regexes in order on the
lower-cased line; the first match wins.  Every pattern starts with a literal
(`table`, `tab.` or `tbl`), so `re.search` is the first position where the
literal occurs and the remainder parses.  Single-group patterns are wrapped
by the source into a mock match with number `'1'`. -/

/-- Roman-numeral character class `[ivxlc]` (on the lower-cased line). -/
def isRomanChar (c : Char) : Bool := ['i', 'v', 'x', 'l', 'c'].contains c

/-- Tail `\.?\s*(.*)` after position `k`. -/
def titleRest1 (s : Str) (k : ℕ) : Str :=
  let k2 := if testAt (· = '.') s k then k + 1 else k
  s.drop (k2 + runLen isSpaceChar s k2)

/-- Tail `\s*[C]\s*(.*)` after position `k`, for a separator class `C`. -/
def titleRest2 (chars : List Char) (s : Str) (k : ℕ) : Option Str :=
  let w := runLen isSpaceChar s k
  if testAt (chars.contains ·) s (k + w) then
    let k2 := k + w + 1
    some (s.drop (k2 + runLen isSpaceChar s k2))
  else none

/-- Parse `(\d+)` at `j`, returning the digits and the end position. -/
def titleDigits (s : Str) (j : ℕ) : Option (Str × ℕ) :=
  let d := runLen isDigitChar s j
  if 1 ≤ d then some ((s.drop j).take d, j + d) else none

/-- Parse `([ivxlc]+)` at `j`. -/
def titleRoman (s : Str) (j : ℕ) : Option (Str × ℕ) :=
  let d := runLen isRomanChar s j
  if 1 ≤ d then some ((s.drop j).take d, j + d) else none

/-- Pattern 1: `table\s+(\d+)\.?\s*(.*)`. -/
def titleP1 (s : Str) (i : ℕ) : Option (Str × Str) :=
  if litAt "table".toList s i then
    let w := runLen isSpaceChar s (i + 5)
    if 1 ≤ w then
      match titleDigits s (i + 5 + w) with
      | some (num, k) => some (num, titleRest1 s k)
      | none => none
    else none
  else none

/-- Pattern 2: `table\s+(\d+)\s*[-:]\s*(.*)`. -/
def titleP2 (s : Str) (i : ℕ) : Option (Str × Str) :=
  if litAt "table".toList s i then
    let w := runLen isSpaceChar s (i + 5)
    if 1 ≤ w then
      match titleDigits s (i + 5 + w) with
      | some (num, k) => (titleRest2 ['-', ':'] s k).map (fun r => (num, r))
      | none => none
    else none
  else none

/-- Pattern 3: `table\s+(\d+)\s*\.\s*(.*)`. -/
def titleP3 (s : Str) (i : ℕ) : Option (Str × Str) :=
  if litAt "table".toList s i then
    let w := runLen isSpaceChar s (i + 5)
    if 1 ≤ w then
      match titleDigits s (i + 5 + w) with
      | some (num, k) => (titleRest2 ['.'] s k).map (fun r => (num, r))
      | none => none
    else none
  else none

/-- Pattern 4: `table\s+(\d+)\s+(.*)`. -/
def titleP4 (s : Str) (i : ℕ) : Option (Str × Str) :=
  if litAt "table".toList s i then
    let w := runLen isSpaceChar s (i + 5)
    if 1 ≤ w then
      match titleDigits s (i + 5 + w) with
      | some (num, k) =>
        let w2 := runLen isSpaceChar s k
        if 1 ≤ w2 then some (num, s.drop (k + w2)) else none
      | none => none
    else none
  else none

/-- Pattern 5: `table\s+([ivxlc]+)\.?\s*(.*)`. -/
def titleP5 (s : Str) (i : ℕ) : Option (Str × Str) :=
  if litAt "table".toList s i then
    let w := runLen isSpaceChar s (i + 5)
    if 1 ≤ w then
      match titleRoman s (i + 5 + w) with
      | some (num, k) => some (num, titleRest1 s k)
      | none => none
    else none
  else none

/-- Pattern 6: `table\s+([ivxlc]+)\s*[-:]\s*(.*)`. -/
def titleP6 (s : Str) (i : ℕ) : Option (Str × Str) :=
  if litAt "table".toList s i then
    let w := runLen isSpaceChar s (i + 5)
    if 1 ≤ w then
      match titleRoman s (i + 5 + w) with
      | some (num, k) => (titleRest2 ['-', ':'] s k).map (fun r => (num, r))
      | none => none
    else none
  else none

/-- Pattern 7: `table\s+([a-z])\.?\s*(.*)`. -/
def titleP7 (s : Str) (i : ℕ) : Option (Str × Str) :=
  if litAt "table".toList s i then
    let w := runLen isSpaceChar s (i + 5)
    if 1 ≤ w then
      match s.get? (i + 5 + w) with
      | some c =>
        if isLowerChar c then some ([c], titleRest1 s (i + 5 + w + 1)) else none
      | none => none
    else none
  else none

/-- Pattern 8: `table\s+([a-z])\s*[-:]\s*(.*)`. -/
def titleP8 (s : Str) (i : ℕ) : Option (Str × Str) :=
  if litAt "table".toList s i then
    let w := runLen isSpaceChar s (i + 5)
    if 1 ≤ w then
      match s.get? (i + 5 + w) with
      | some c =>
        if isLowerChar c then
          (titleRest2 ['-', ':'] s (i + 5 + w + 1)).map (fun r => ([c], r))
        else none
      | none => none
    else none
  else none

/-- Pattern 9: `table\s*(\d+)\.?\s*(.*)`. -/
def titleP9 (s : Str) (i : ℕ) : Option (Str × Str) :=
  if litAt "table".toList s i then
    let w := runLen isSpaceChar s (i + 5)
    match titleDigits s (i + 5 + w) with
    | some (num, k) => some (num, titleRest1 s k)
    | none => none
  else none

/-- Pattern 10: `tab\.\s*(\d+)\.?\s*(.*)`. -/
def titleP10 (s : Str) (i : ℕ) : Option (Str × Str) :=
  if litAt "tab.".toList s i then
    let w := runLen isSpaceChar s (i + 4)
    match titleDigits s (i + 4 + w) with
    | some (num, k) => some (num, titleRest1 s k)
    | none => none
  else none

/-- Pattern 11: `tbl\.?\s*(\d+)\.?\s*(.*)`. -/
def titleP11 (s : Str) (i : ℕ) : Option (Str × Str) :=
  if litAt "tbl".toList s i then
    let j := if testAt (· = '.') s (i + 3) then i + 4 else i + 3
    let w := runLen isSpaceChar s j
    match titleDigits s (j + w) with
    | some (num, k) => some (num, titleRest1 s k)
    | none => none
  else none

/-- Pattern 12: `table\s+(\d+)\.\s*([^.]+\..*)`.  The `\s*` backtracks from
its greedy extent until the second group (at least one non-dot character,
then a dot) can match. -/
def titleP12 (s : Str) (i : ℕ) : Option (Str × Str) :=
  if litAt "table".toList s i then
    let w := runLen isSpaceChar s (i + 5)
    if 1 ≤ w then
      match titleDigits s (i + 5 + w) with
      | some (num, k) =>
        if testAt (· = '.') s k then
          let k2 := k + 1
          let wmax := runLen isSpaceChar s k2
          ((List.range (wmax + 1)).reverse.findSome? (fun j =>
            let p := k2 + j
            if testAt (fun c => !(c = '.')) s p then
              let run := runLen (fun c => !(c = '.')) s p
              if p + run < s.length then some (s.drop p) else none
            else none)).map (fun r => (num, r))
        else none
      | none => none
    else none
  else none

/-- Pattern 13: `table\s+(\d+)\s*[-–—]\s*(.*)`. -/
def titleP13 (s : Str) (i : ℕ) : Option (Str × Str) :=
  if litAt "table".toList s i then
    let w := runLen isSpaceChar s (i + 5)
    if 1 ≤ w then
      match titleDigits s (i + 5 + w) with
      | some (num, k) => (titleRest2 ['-', '–', '—'] s k).map (fun r => (num, r))
      | none => none
    else none
  else none

/-- Pattern 14: `table\s*\((\d+)\)\s*(.*)`. -/
def titleP14 (s : Str) (i : ℕ) : Option (Str × Str) :=
  if litAt "table".toList s i then
    let w := runLen isSpaceChar s (i + 5)
    if testAt (· = '(') s (i + 5 + w) then
      match titleDigits s (i + 5 + w + 1) with
      | some (num, k) =>
        if testAt (· = ')') s k then
          some (num, s.drop (k + 1 + runLen isSpaceChar s (k + 1)))
        else none
      | none => none
    else none
  else none

/-- Pattern 15: `table\s*\[(\d+)\]\s*(.*)`. -/
def titleP15 (s : Str) (i : ℕ) : Option (Str × Str) :=
  if litAt "table".toList s i then
    let w := runLen isSpaceChar s (i + 5)
    if testAt (· = '[') s (i + 5 + w) then
      match titleDigits s (i + 5 + w + 1) with
      | some (num, k) =>
        if testAt (· = ']') s k then
          some (num, s.drop (k + 1 + runLen isSpaceChar s (k + 1)))
        else none
      | none => none
    else none
  else none

/-- Pattern 16: `table\s*[-:]\s*(.*)`; a single group, so the source mocks
the number as `'1'`. -/
def titleP16 (s : Str) (i : ℕ) : Option (Str × Str) :=
  if litAt "table".toList s i then
    (titleRest2 ['-', ':'] s (i + 5)).map (fun r => ("1".toList, r))
  else none

/-- Pattern 17: `table\s+(.*)`; single group, number mocked as `'1'`. -/
def titleP17 (s : Str) (i : ℕ) : Option (Str × Str) :=
  if litAt "table".toList s i then
    let w := runLen isSpaceChar s (i + 5)
    if 1 ≤ w then some ("1".toList, s.drop (i + 5 + w)) else none
  else none

/-- The seventeen title patterns in source order. -/
def titleParsers : List (Str → ℕ → Option (Str × Str)) :=
  [titleP1, titleP2, titleP3, titleP4, titleP5, titleP6, titleP7, titleP8,
   titleP9, titleP10, titleP11, titleP12, titleP13, titleP14, titleP15,
   titleP16, titleP17]

/-- Leftmost `re.search` of one pattern: the first position whose parse
succeeds. -/
def searchParse (parse : Str → ℕ → Option (Str × Str)) (s : Str) :
    Option (Str × Str) :=
  (List.range (s.length + 1)).findSome? (fun i => parse s i)

/-- Python `_detect_table_title` of `table_extractor.py` (lines 367-456):
first matching pattern wins; the structural-header fallback mocks the number
as `'1'` with the stripped original line as description. -/
def detectTableTitle (lineLower : Str) (originalLine : Str) : Option (Str × Str) :=
  match titleParsers.findSome? (fun parse => searchParse parse lineLower) with
  | some r => some r
  | none =>
    if looksLikeTableHeaderLine originalLine then
      some ("1".toList, pyStrip originalLine)
    else none

/-! ### Section discovery and consolidation -/

/-- A table-section dictionary built by `_find_complete_table_sections`. -/
structure Section where
  title : Str
  tableNumber : Str
  description : Str
  contentLines : List Str
  startLine : ℕ
deriving DecidableEq, Repr

/-- Close the current section: keep it only with at least two content lines. -/
def closeSection (sections : List Section) : Option Section → List Section
  | some cs => if 2 ≤ cs.contentLines.length then sections ++ [cs] else sections
  | none => sections

/-- The scanning loop of `_find_complete_table_sections`. -/
def fctsGo : List Str → ℕ → Option Section → List Section → List Section
  | [], _, current, sections => closeSection sections current
  | line :: rest, i, current, sections =>
    match detectTableTitle (toLowerStr line) line with
    | some (num, desc) =>
      fctsGo rest (i + 1) (some ⟨line, num, pyStrip desc, [], i⟩)
        (closeSection sections current)
    | none =>
      match current with
      | some cs =>
        if looksLikeTableContent line cs.contentLines then
          fctsGo rest (i + 1)
            (some { cs with contentLines := cs.contentLines ++ [line] }) sections
        else fctsGo rest (i + 1) none (closeSection sections (some cs))
      | none => fctsGo rest (i + 1) none sections

/-- An implicit section dictionary (`_find_implicit_table_sections`). -/
def mkImplicitSection (startLine : ℕ) (block : List Str) : Section :=
  ⟨"Table (detected at line ".toList ++ Nat.toDigits 10 (startLine + 1) ++ ")".toList,
   "1".toList, "Implicitly detected table".toList, block, startLine⟩

/-- The scanning loop of `_find_implicit_table_sections`. -/
def fitsGo : List Str → ℕ → List Str → List Section → List Section
  | [], i, currentBlock, acc =>
    if 3 ≤ currentBlock.length then
      acc ++ [mkImplicitSection (i - currentBlock.length) currentBlock]
    else acc
  | line :: rest, i, currentBlock, acc =>
    if looksLikeTableRow line then fitsGo rest (i + 1) (currentBlock ++ [line]) acc
    else
      let acc2 :=
        if 3 ≤ currentBlock.length then
          acc ++ [mkImplicitSection (i - currentBlock.length) currentBlock]
        else acc
      fitsGo rest (i + 1) [] acc2

/-- Python `_find_implicit_table_sections` of `table_extractor.py` (lines
540-570). -/
def findImplicitTableSections (lines : List Str) : List Section :=
  fitsGo lines 0 [] []

/-- Python `_find_complete_table_sections` of `table_extractor.py` (lines
487-538), with its implicit fallback. -/
def findCompleteTableSections (lines : List Str) : List Section :=
  let sections := fctsGo lines 0 none []
  if sections.isEmpty then findImplicitTableSections lines else sections

/-- Search for `table\s+\d+`. -/
def searchTableNumber (s : Str) : Bool :=
  (List.range s.length).any (fun i =>
    litAt "table".toList s i &&
    (let w := runLen isSpaceChar s (i + 5)
     decide (1 ≤ w) && testAt isDigitChar s (i + 5 + w)))

/-- Python `_similar_table_structure` of `table_extractor.py` (lines
1276-1297). -/
def similarTableStructure (lines1 lines2 : List Str) : Bool :=
  if lines1.isEmpty || lines2.isEmpty then false
  else
    (List.zip (lines1.take 3) (lines2.take 3)).any (fun p =>
      natDist (pySplit p.1).length (pySplit p.2).length ≤ 3 &&
      natDist (countNumberTokens p.1) (countNumberTokens p.2) ≤ 2)

/-- Python `_likely_table_continuation` of `table_extractor.py` (lines
1299-1322). -/
def likelyTableContinuation (prevLines currLines : List Str) : Bool :=
  if prevLines.isEmpty || currLines.isEmpty then false
  else
    let firstCurrLine := currLines.headD []
    let hasMethodPattern := matchMethodNameStart firstCurrLine
    let hasManyNumbers := 3 ≤ countNumberTokens firstCurrLine
    let lower := toLowerStr firstCurrLine
    let looksLikeHeader :=
      searchWordContaining [String.toList "method", String.toList "approach"] lower ||
      searchWordContaining [String.toList "model", String.toList "dat"] lower ||
      searchWordContaining [String.toList "param", String.toList "flop"] lower
    (hasMethodPattern || decide hasManyNumbers) && !looksLikeHeader

/-- The merging loop of `_consolidate_related_table_sections`. -/
def consolidateGo : List Section → Option Section → List Section → List Section
  | [], current, acc =>
    (match current with
     | some c => acc ++ [c]
     | none => acc)
  | sec :: rest, current, acc =>
    match current with
    | some cur =>
      let title := toLowerStr sec.title
      let shouldMerge :=
        !(searchTableNumber title) ||
        similarTableStructure cur.contentLines sec.contentLines ||
        likelyTableContinuation cur.contentLines sec.contentLines
      if shouldMerge then
        let newDesc :=
          if cur.description.isEmpty && !sec.description.isEmpty then
            sec.description
          else cur.description
        consolidateGo rest
          (some { cur with contentLines := cur.contentLines ++ sec.contentLines,
                           description := newDesc }) acc
      else consolidateGo rest (some sec) (acc ++ [cur])
    | none => consolidateGo rest (some sec) acc

/-- Python `_consolidate_related_table_sections` of `table_extractor.py`
(lines 1230-1274). -/
def consolidateRelatedTableSections (sections : List Section) : List Section :=
  if sections.isEmpty then [] else consolidateGo sections none []

/-! ### Pattern-based row splitting

Python `_split_by_patterns` re-searches its own `pattern_regexes` dictionary
(which differs from the finder's library in the `author_reference` and
`percentage` entries) and consumes both the start and the end of each first
match.  The end computations below follow the leftmost-then-greedy
backtracking of each pattern. -/

/-- First closing parenthesis strictly after `i`. -/
def findCloseParen (s : Str) (i : ℕ) : Option ℕ :=
  (List.range s.length).find? (fun j => decide (i < j) && testAt (· = ')') s j)

/-- First comma at or after `j`. -/
def firstCommaFrom (s : Str) (j : ℕ) : Option ℕ :=
  (List.range s.length).find? (fun k => decide (j ≤ k) && testAt (· = ',') s k)

/-- Match of the splitter's `author_reference` regex
`[A-Za-z][^,\d]*?\bet al\.?[^,]*` beginning at `i`: a letter, then a lazy
digit-and-comma-free stretch, then `et al` at a word boundary. -/
def splitAuthorMatchAt (s : Str) (i : ℕ) : Bool :=
  testAt isAlphaChar s i &&
  (List.range s.length).any (fun k =>
    decide (i + 1 ≤ k) && ciIsPrefixOf "et al".toList (s.drop k) &&
    boundaryBefore s k &&
    ((s.drop (i + 1)).take (k - (i + 1))).all
      (fun c => !isDigitChar c && !(c = ',')))

/-- End of the `author_reference` match beginning at `i`: after the lazily
smallest `et al`, an optional dot, then everything up to the next comma. -/
def splitAuthorMatchEnd (s : Str) (i : ℕ) : ℕ :=
  match (List.range s.length).find? (fun k =>
      decide (i + 1 ≤ k) && ciIsPrefixOf "et al".toList (s.drop k) &&
      boundaryBefore s k &&
      ((s.drop (i + 1)).take (k - (i + 1))).all
        (fun c => !isDigitChar c && !(c = ','))) with
  | some k =>
    let e0 := k + 5
    let e1 := if testAt (· = '.') s e0 then e0 + 1 else e0
    (firstCommaFrom s e1).getD s.length
  | none => s.length

/-- Match of the splitter's `percentage` regex `\d+\.?\d*\s*%` beginning at
`i`. -/
def splitPercentMatchAt (s : Str) (i : ℕ) : Bool :=
  testAt isDigitChar s i &&
  (let e := numShapeEnd s i
   testAt (· = '%') s (e + runLen isSpaceChar s e))

/-- End of the splitter's `percentage` match beginning at `i`. -/
def splitPercentMatchEnd (s : Str) (i : ℕ) : ℕ :=
  let e := numShapeEnd s i
  e + runLen isSpaceChar s e + 1

/-- Greedy end of the optional unit suffixes with a final word boundary,
starting from a numeric-shape end `e`. -/
def numUnitsEndFrom (s : Str) (e : ℕ) : Option ℕ :=
  if testAt isUnit1Char s e then
    if testAt isUnit2Char s (e + 1) && boundaryAt s (e + 2) then some (e + 2)
    else if boundaryAt s (e + 1) then some (e + 1)
    else if boundaryAt s e then some e
    else none
  else if testAt isUnit2Char s e then
    if boundaryAt s (e + 1) then some (e + 1)
    else if boundaryAt s e then some e
    else none
  else if boundaryAt s e then some e
  else none

/-- End of a `numbers_with_units` match beginning at `i`. -/
def numbersWithUnitsEnd (s : Str) (i : ℕ) : ℕ :=
  let j := i + runLen isDigitChar s i
  if testAt (· = '.') s j then
    match numUnitsEndFrom s (j + 1 + runLen isDigitChar s (j + 1)) with
    | some e => e
    | none => (numUnitsEndFrom s j).getD j
  else (numUnitsEndFrom s j).getD j

/-- End of the exponent tail `[eE][+-]?\d+` at `e`, when it matches. -/
def sciEndFrom (s : Str) (e : ℕ) : Option ℕ :=
  if sciTailOk s e then
    let j := if testAt (fun c => c = '+' || c = '-') s (e + 1) then e + 2 else e + 1
    some (j + runLen isDigitChar s j)
  else none

/-- End of a `scientific_notation` match beginning at `i`. -/
def scientificNotationEnd (s : Str) (i : ℕ) : ℕ :=
  let j := i + runLen isDigitChar s i
  if testAt (· = '.') s j then
    match sciEndFrom s (j + 1 + runLen isDigitChar s (j + 1)) with
    | some e => e
    | none => (sciEndFrom s j).getD j
  else (sciEndFrom s j).getD j

/-- End of an `acronyms` match beginning at `i`: the letter run, plus the
optional `-\d+` suffix when present. -/
def acronymsEnd (s : Str) (i : ℕ) : ℕ :=
  let base := i + runLen isAlphaChar s i
  if testAt (· = '-') s base && decide (0 < runLen isDigitChar s (base + 1)) then
    base + 1 + runLen isDigitChar s (base + 1)
  else base

/-- Greedy boundary-respecting end of the `(?:\.\d+)*` extension chain of
`versioned_terms`, starting at a digit-run end `e`. -/
def versionedExtEnd (s : Str) : ℕ → ℕ → Option ℕ
  | 0, e => if boundaryAt s e then some e else none
  | fuel + 1, e =>
    if testAt (· = '.') s e && decide (0 < runLen isDigitChar s (e + 1)) then
      match versionedExtEnd s fuel (e + 1 + runLen isDigitChar s (e + 1)) with
      | some d => some d
      | none => if boundaryAt s e then some e else none
    else if boundaryAt s e then some e else none

/-- End of a `versioned_terms` match beginning at `i`. -/
def versionedTermsEnd (s : Str) (i : ℕ) : ℕ :=
  let L := runLen isAlphaChar s i
  let j := if testAt (fun c => c = '-' || c = '_') s (i + L) then i + L + 1 else i + L
  let D := runLen isDigitChar s j
  (versionedExtEnd s s.length (j + D)).getD (j + D)

/-- End of a `hyphenated_terms` match beginning at `i`: up to three dash
groups, backtracking to a word boundary. -/
def hyphenatedTermsEnd (s : Str) (i : ℕ) : ℕ :=
  let p1 := i + runLen isAlphaChar s i
  match hyphenGroupEnd s p1 with
  | none => p1
  | some p2 =>
    match hyphenGroupEnd s p2 with
    | none => p2
    | some p3 =>
      match hyphenGroupEnd s p3 with
      | none => if !wordAt s p3 then p3 else p2
      | some p4 =>
        if !wordAt s p4 then p4 else if !wordAt s p3 then p3 else p2

/-- Match test of the splitter's regex for a pattern name. -/
def splitterMatchAt (p : PatternName) (s : Str) (i : ℕ) : Bool :=
  match p with
  | .authorReference => splitAuthorMatchAt s i
  | .percentage => splitPercentMatchAt s i
  | other => patternMatchAt other s i

/-- End of the splitter's first match beginning at `i` for a pattern name. -/
def splitterMatchEnd (p : PatternName) (s : Str) (i : ℕ) : ℕ :=
  match p with
  | .authorReference => splitAuthorMatchEnd s i
  | .yearParentheses => ((findCloseParen s i).getD (s.length - 1)) + 1
  | .datasetParentheses => ((findCloseParen s i).getD (s.length - 1)) + 1
  | .percentage => splitPercentMatchEnd s i
  | .numbersWithUnits => numbersWithUnitsEnd s i
  | .scientificNotation => scientificNotationEnd s i
  | .technicalTerms => i + runLen isAlphaChar s i
  | .acronyms => acronymsEnd s i
  | .versionedTerms => versionedTermsEnd s i
  | .hyphenatedTerms => hyphenatedTermsEnd s i

/-- First match (start and end) of the splitter's regex for a pattern name. -/
def patternFirstMatchSplit (p : PatternName) (s : Str) : Option (ℕ × ℕ) :=
  ((List.range s.length).find? (fun i => splitterMatchAt p s i)).map
    (fun i => (i, splitterMatchEnd p s i))

/-- Python `re.split(r'\s{2,}', line)`: cut at maximal whitespace runs of
length at least two, keeping empty pieces at the ends. -/
def splitMultiSpaceRuns : Str → Str → List Str
  | [], acc => [acc.reverse]
  | c :: cs, acc =>
    if isSpaceChar c && 1 ≤ (cs.takeWhile isSpaceChar).length then
      acc.reverse :: splitMultiSpaceRuns (cs.drop ((cs.takeWhile isSpaceChar).length)) []
    else splitMultiSpaceRuns cs (c :: acc)
termination_by s _ => s.length
decreasing_by
  all_goals simp [List.length_drop]
  omega

/-- Python `_split_by_patterns` of `table_extractor.py` (lines 1444-1525). -/
def splitByPatterns (line : Str) (patterns : List PatternInfo) : List Str :=
  if patterns.isEmpty || (pyStrip line).isEmpty then
    if !(pyStrip line).isEmpty then [pyStrip line] else []
  else
    let remaining := pyStrip line
    let sortedPatterns := sortPatternInfoAsc patterns
    let step := sortedPatterns.foldl (fun (acc : List Str × ℕ) patternInfo =>
      let lastEnd := acc.2
      let searchText := if lastEnd < remaining.length then remaining.drop lastEnd else []
      match patternFirstMatchSplit patternInfo.name searchText with
      | some me =>
        let matchStart := lastEnd + me.1
        let matchEnd := lastEnd + me.2
        let cols1 :=
          if lastEnd < matchStart then
            let pre := pyStrip ((remaining.drop lastEnd).take (matchStart - lastEnd))
            if !pre.isEmpty then acc.1 ++ [pre] else acc.1
          else acc.1
        let matched := pyStrip ((remaining.drop matchStart).take (matchEnd - matchStart))
        let cols2 := if !matched.isEmpty then cols1 ++ [matched] else cols1
        (cols2, matchEnd)
      | none => acc) ([], 0)
    let columns :=
      if step.2 < remaining.length then
        let finalContent := pyStrip (remaining.drop step.2)
        if !finalContent.isEmpty then step.1 ++ [finalContent] else step.1
      else step.1
    if !columns.isEmpty then columns
    else if line.contains '\t' then
      (pySplitChar '\t' line).filterMap
        (fun c => if !(pyStrip c).isEmpty then some (pyStrip c) else none)
    else if containsSub "  ".toList line then
      (splitMultiSpaceRuns line []).filterMap
        (fun c => if !(pyStrip c).isEmpty then some (pyStrip c) else none)
    else
      let words := pySplit line
      if words.length ≤ 4 then words
      else
        [joinWords (words.take (words.length / 2)),
         joinWords (words.drop (words.length / 2))]

/-! ### Parsing, validation, and the text entry point -/

/-- Python `_parse_table_row_with_structure` of `table_extractor.py` (lines
1143-1162). -/
def parseTableRowWithStructure (line : Str) (struct : ColStructure) : List Str :=
  if (pyStrip line).isEmpty then []
  else
    match struct with
    | .academicCitationNumerical _ ngs cc => splitAcademicCitationNumerical line ngs cc
    | .multiSpace pos _ => splitByPositions line pos
    | .tab _ =>
      (pySplitChar '\t' line).filterMap
        (fun col => if !(pyStrip col).isEmpty then some (pyStrip col) else none)
    | .pattern pats _ => splitByPatterns line pats
    | .positional pos _ => splitByPositions line pos
    | .wordBased cc => splitByWordGroups line cc

/-- Python `_parse_academic_table_section` of `table_extractor.py` (lines
668-709). -/
def parseAcademicTableSection (sec : Section) : Option (List (List Str)) :=
  let contentLines := sec.contentLines
  if contentLines.isEmpty then none
  else
    match analyzeTableColumnStructure contentLines with
    | none => none
    | some columnStructure =>
      let headerSearch := (List.range (min 3 contentLines.length)).find?
        (fun i => looksLikeHeaderRow (contentLines.getD i []))
      let headerRow :=
        match headerSearch with
        | some i => contentLines.getD i []
        | none => contentLines.headD []
      let dataRows :=
        match headerSearch with
        | some i => contentLines.drop (i + 1)
        | none => contentLines.tail
      let headerColumns := parseTableRowWithStructure headerRow columnStructure
      if headerColumns.isEmpty then none
      else
        let tableData := headerColumns :: dataRows.filterMap (fun rowLine =>
          let rowData := parseTableRowWithStructure rowLine columnStructure
          if !rowData.isEmpty then some rowData else none)
        if 2 ≤ tableData.length then some tableData else none

/-- Python `_validate_academic_table` of `table_extractor.py` (lines
1385-1413). -/
def validateAcademicTable (tableData : List (List Str)) : Bool :=
  if tableData.isEmpty || tableData.length < 2 then false
  else
    let colCounts := tableData.map List.length
    -- `avg_cols < 2` is `sum < 2 * len`; the 60-percent content bar
    -- `non_empty >= total * 0.6` is `6 * total <= 10 * non_empty`
    if colCounts.sum < 2 * colCounts.length then false
    else
      let totalCells := colCounts.sum
      let nonEmptyCells := nonEmptyCellCount tableData
      decide (6 * totalCells ≤ 10 * nonEmptyCells)

/-- Python `extract_tables_from_text` of `table_extractor.py` (lines
334-365). -/
def extractTablesFromText (text : Str) (pageNum : ℕ) : List PyTable :=
  let lines := ((pySplitChar '\n' text).map pyStrip).filter (fun l => !l.isEmpty)
  let tableSections := findCompleteTableSections lines
  let consolidatedSections := consolidateRelatedTableSections tableSections
  consolidatedSections.enum.filterMap (fun p =>
    match parseAcademicTableSection p.2 with
    | some tableData =>
      if validateAcademicTable tableData then
        some ⟨"academic_text_table", pageNum, p.1, tableData,
          calculateAcademicTableConfidence tableData, ⟨0, 0, 0, 0⟩,
          p.2.title, p.2.description⟩
      else none
    | none => none)

/-! ### Markdown renderer

Python `convert_table_to_markdown` and its helpers.  The only genuinely
float-dependent step, `f"{value:.2f}"` formatting of binary doubles, is
modelled as exact rational round-half-even; no claim depends on formatted
digit strings. -/

/-- Search for `\d+\.\d+%`. -/
def searchDecimalPercent (s : Str) : Bool :=
  (List.range s.length).any (fun i =>
    testAt isDigitChar s i &&
    (let a := i + runLen isDigitChar s i
     testAt (· = '.') s a &&
     (let d2 := runLen isDigitChar s (a + 1)
      decide (1 ≤ d2) && testAt (· = '%') s (a + 1 + d2))))

/-- End of a `\d+\.\d+` shape starting at `i`, when it matches. -/
def parseDecimalAt (s : Str) (i : ℕ) : Option ℕ :=
  if testAt isDigitChar s i then
    let a := i + runLen isDigitChar s i
    if testAt (· = '.') s a && decide (1 ≤ runLen isDigitChar s (a + 1)) then
      some (a + 1 + runLen isDigitChar s (a + 1))
    else none
  else none

/-- Search for `\d+\.\d+±\d+\.\d+`. -/
def searchMeanStd (s : Str) : Bool :=
  (List.range s.length).any (fun i =>
    match parseDecimalAt s i with
    | some e => testAt (· = '±') s e && (parseDecimalAt s (e + 1)).isSome
    | none => false)

/-- Search for `\d+\.\d+\s*[±]\s*\d+\.\d+`. -/
def searchMeanStdSpaced (s : Str) : Bool :=
  (List.range s.length).any (fun i =>
    match parseDecimalAt s i with
    | some e =>
      let w1 := runLen isSpaceChar s e
      testAt (· = '±') s (e + w1) &&
      (let p := e + w1 + 1
       (parseDecimalAt s (p + runLen isSpaceChar s p)).isSome)
    | none => false)

/-- Search for `\d+\.\d{2,4}`: a dot with at least two digits after it. -/
def searchDecimal24 (s : Str) : Bool :=
  (List.range s.length).any (fun i =>
    testAt isDigitChar s i &&
    (let a := i + runLen isDigitChar s i
     testAt (· = '.') s a && decide (2 ≤ runLen isDigitChar s (a + 1))))

/-- Search for `\d+[,]\d+`. -/
def searchCommaNumber (s : Str) : Bool :=
  (List.range s.length).any (fun i =>
    testAt isDigitChar s i && testAt (· = ',') s (i + 1) &&
    testAt isDigitChar s (i + 2))

/-- Search for `\b\d+[kKmM]\b`. -/
def searchNumberSuffixKM (s : Str) : Bool :=
  (List.range s.length).any (fun i =>
    testAt isDigitChar s i && boundaryBefore s i &&
    (let D := runLen isDigitChar s i
     testAt (fun c => c = 'k' || c = 'K' || c = 'm' || c = 'M') s (i + D) &&
     !wordAt s (i + D + 1)))

/-- Python `detect_numerical_patterns` of `table_extractor.py` (lines
231-246). -/
def detectNumericalPatterns (text : Str) : Bool :=
  searchDecimalPercent text || searchMeanStd text || searchMeanStdSpaced text ||
    searchDecimal24 text || searchCommaNumber text || searchNumberSuffixKM text

/-- Search for `\(.*\d{4}.*\)`: a parenthesis pair with four consecutive
digits somewhere between. -/
def searchParenYearLoose (s : Str) : Bool :=
  (List.range s.length).any (fun i =>
    testAt (· = '(') s i &&
    ((List.range s.length).any (fun k =>
      decide (i < k) && testAt isDigitChar s k && testAt isDigitChar s (k + 1) &&
      testAt isDigitChar s (k + 2) && testAt isDigitChar s (k + 3) &&
      ((List.range s.length).any (fun j =>
        decide (k + 4 ≤ j) && testAt (· = ')') s j)))))

/-- Group class `[A-ZaZ]` of the source's (typo) method-name pattern:
capitals plus the letter `a`. -/
def typoClassChar (c : Char) : Bool := isUpperChar c || c = 'a'

/-- Tail of `\b[A-Za-z]+(?:[-_][A-ZaZ]+)*\b`. -/
def typoDashTailOk (s : Str) : ℕ → ℕ → Bool
  | 0, p => !wordAt s p
  | fuel + 1, p =>
    !wordAt s p ||
    (testAt (fun c => c = '-' || c = '_') s p &&
     decide (0 < runLen typoClassChar s (p + 1)) &&
     typoDashTailOk s fuel (p + 1 + runLen typoClassChar s (p + 1)))

/-- Search for `\b[A-Za-z]+(?:[-_][A-ZaZ]+)*\b` (the source's method-name
check in `_generate_smart_headers`, with its `[A-ZaZ]` class typo). -/
def searchMethodNameTypo (s : Str) : Bool :=
  (List.range s.length).any (fun i =>
    testAt isAlphaChar s i && boundaryBefore s i &&
    typoDashTailOk s s.length (i + runLen isAlphaChar s i))

/-- Search for a literal word with boundaries (`\bms\b`, `\bs\b`). -/
def searchExactWord (w : Str) (s : Str) : Bool :=
  (List.range s.length).any (fun i =>
    litAt w s i && boundaryBefore s i && !wordAt s (i + w.length))

/-- Decimal string of a natural number. -/
def natToStr (n : ℕ) : Str := Nat.toDigits 10 n

/-- Python `_generate_smart_headers` of `table_extractor.py` (lines
182-229). -/
def generateSmartHeaders (tableData : List (List Str)) (maxCols : ℕ) : List Str :=
  (List.range maxCols).map (fun colIdx =>
    let columnValues := tableData.filterMap (fun row =>
      if colIdx < row.length && !(pyStrip (row.getD colIdx [])).isEmpty then
        some (pyStrip (row.getD colIdx []))
      else none)
    if columnValues.isEmpty then "Column ".toList ++ natToStr (colIdx + 1)
    else
      let columnText := toLowerStr (joinWords columnValues)
      if colIdx = 0 then
        if columnValues.any searchParenYearLoose then "Reference".toList
        else if columnValues.any searchMethodNameTypo then "Method".toList
        else "Approach".toList
      else if detectNumericalPatterns columnText then
        if searchPercentage columnText ||
            searchWordContaining [String.toList "acc", String.toList "prec"]
              columnText then "Accuracy".toList
        else if searchWordContaining [String.toList "loss", String.toList "err"]
            columnText then "Loss".toList
        else if searchWordContaining [String.toList "time", String.toList "speed"]
              columnText ||
            searchExactWord "ms".toList columnText ||
            searchExactWord "s".toList columnText then "Time".toList
        else "Metric".toList
      else
        if searchWordContaining
            [String.toList "dat", String.toList "corp", String.toList "bench"]
            columnText then "Dataset".toList
        else if searchWordContaining
            [String.toList "arch", String.toList "net", String.toList "model"]
            columnText then "Architecture".toList
        else if searchWordContaining
            [String.toList "type", String.toList "class", String.toList "categ"]
            columnText then "Type".toList
        else "Column ".toList ++ natToStr (colIdx + 1))

/-- The smart-column-start scan of `convert_table_to_markdown`: the first row
holding at least 70 percent of the maximal column count. -/
def rendererWorkingData (tableData : List (List Str)) : List (List Str) :=
  let maxCols := maxNat (tableData.map List.length)
  let actualTableStart :=
    ((List.range tableData.length).find? (fun i =>
      -- `len(row) >= max_cols * 0.7`, cross-multiplied
      decide (7 * maxCols ≤ 10 * (tableData.getD i []).length))).getD 0
  let working := tableData.drop actualTableStart
  if working.isEmpty then tableData else working

/-- The renormalised column count of `convert_table_to_markdown`: the maximal
row length of the working data, at least 2. -/
def rendererMaxCols (tableData : List (List Str)) : ℕ :=
  let m := maxNat ((rendererWorkingData tableData).map List.length)
  if m < 2 then 2 else m

/-- The renderer's normalisation step: every working row padded with empty
cells and truncated to the common column count. -/
def rendererNormalizedData (tableData : List (List Str)) : List (List Str) :=
  (rendererWorkingData tableData).map
    (fun row => (padColumns row (rendererMaxCols tableData)).take (rendererMaxCols tableData))

/-- Python `re.sub(r'[|\n\r]', ' ', cell).strip()`. -/
def cleanCellText (cell : Str) : Str :=
  pyStrip (cell.map (fun c => if c = '|' || c = '\n' || c = '\r' then ' ' else c))

/-- Python `str.replace` of `|` by `\|`. -/
def escapePipes (s : Str) : Str :=
  s.flatMap (fun c => if c = '|' then ['\\', '|'] else [c])

/-- Capitalise the first character (`cleaned[0].upper() + cleaned[1:]`). -/
def capitalizeFirst : Str → Str
  | [] => []
  | c :: r => c.toUpper :: r

/-- Numeric value of a digit string. -/
def digitsToNat (ds : Str) : ℕ :=
  ds.foldl (fun acc c => acc * 10 + (c.toNat - '0'.toNat)) 0

/-- Exact value of a `\d+\.\d+` token. -/
def parseDecimalValue (w : Str) : ℚ :=
  let d1 := w.takeWhile isDigitChar
  let d2 := (w.drop (d1.length + 1)).takeWhile isDigitChar
  (digitsToNat d1 : ℚ) + (digitsToNat d2 : ℚ) / ((10 : ℚ) ^ d2.length)

/-- Round-half-even to an integer. -/
def rheInt (x : ℚ) : ℤ :=
  let f := ⌊x⌋
  let r := x - (f : ℚ)
  if r < 1 / 2 then f
  else if 1 / 2 < r then f + 1
  else if f % 2 = 0 then f else f + 1

/-- Fixed-point rendering of a non-negative rational with the given number of
decimal places (the rational model of Python's `f"{v:.Nf}"`). -/
def formatFixed (v : ℚ) (places : ℕ) : Str :=
  let n := (rheInt (v * ((10 : ℚ) ^ places))).toNat
  let digits := Nat.toDigits 10 n
  let digits2 :=
    if digits.length < places + 1 then
      List.replicate (places + 1 - digits.length) '0' ++ digits
    else digits
  digits2.take (digits2.length - places) ++ ['.'] ++
    digits2.drop (digits2.length - places)

/-- The numeric reformatting of data cells: a full `\d+\.\d+` token is
rendered with 3 decimal places below 1, else 2. -/
def formatNumericCell (cell : Str) : Str :=
  if isDecimalToken cell then
    let v := parseDecimalValue cell
    if v < 1 then formatFixed v 3 else formatFixed v 2
  else cell

/-- Join pieces with a separator string. -/
def joinWith (sep : Str) (ws : List Str) : Str := (ws.intersperse sep).flatten

/-- The five `header_patterns` checks of `convert_table_to_markdown`, applied
to the lower-cased joined first row. -/
def rendererHeaderPatternsOk (firstRowText : Str) : Bool :=
  searchClassWordRange isLowerChar 4 12 firstRowText ||
  searchWordContaining
    [String.toList "dat", String.toList "model", String.toList "method",
     String.toList "approach"] firstRowText ||
  searchPerformanceSuffix firstRowText ||
  searchCapsThenDigits true firstRowText ||
  searchHyphenUnderscoreWord firstRowText

/-- Python `convert_table_to_markdown` of `table_extractor.py` (lines
48-180). -/
def convertTableToMarkdown (table : PyTable) : Str :=
  let tableData := table.data
  if tableData.isEmpty then []
  else
    let maxCols0 := maxNat (tableData.map List.length)
    if maxCols0 = 0 then []
    else
      let maxCols := rendererMaxCols tableData
      let normalizedData := rendererNormalizedData tableData
      if normalizedData.isEmpty then []
      else
        let header := normalizedData.headD []
        let firstRowText := toLowerStr (joinWords header)
        let useSmart :=
          !(header.any (fun h => !(pyStrip h).isEmpty)) ||
            !(rendererHeaderPatternsOk firstRowText)
        let header2 :=
          if useSmart then generateSmartHeaders normalizedData maxCols else header
        let dataRows := if useSmart then normalizedData else normalizedData.tail
        let cleanHeader := header2.enum.map (fun p =>
          let cleaned := cleanCellText p.2
          let cleaned2 :=
            if cleaned.isEmpty then "Column ".toList ++ natToStr (p.1 + 1) else cleaned
          capitalizeFirst cleaned2)
        let caption :=
          "\n**Table ".toList ++ natToStr (table.regionId + 1) ++
          "** *(confidence: ".toList ++ formatFixed table.confidence 2 ++
          ", type: ".toList ++ table.type.toList ++ ")*".toList
        let headerLine := "| ".toList ++ joinWith " | ".toList cleanHeader ++ " |".toList
        let separators := cleanHeader.enum.map (fun p =>
          let columnValues := dataRows.map (fun row => row.getD p.1 [])
          let columnText := joinWords columnValues
          if detectNumericalPatterns columnText then "---:".toList else "---".toList)
        let separatorLine := "| ".toList ++ joinWith " | ".toList separators ++ " |".toList
        let dataLines := dataRows.map (fun row =>
          let cleanRow := row.map (fun cell =>
            formatNumericCell (escapePipes (cleanCellText cell)))
          "| ".toList ++ joinWith " | ".toList cleanRow ++ " |".toList)
        joinWith "\n".toList
          ([caption, []] ++ [headerLine, separatorLine] ++ dataLines ++ [[]])

/-! ### Concrete inputs used by counterexamples and witnesses -/

/-- Two fully overlapping candidates, both above the confidence threshold. -/
def c1TableA : PyTable := ⟨"bbox_grid", 0, 0, [], mkRat 9 10, ⟨0, 0, 10, 10⟩, [], []⟩

/-- The lower-confidence twin of `c1TableA` on the same box. -/
def c1TableB : PyTable := ⟨"text_alignment", 0, 1, [], mkRat 4 5, ⟨0, 0, 10, 10⟩, [], []⟩

/-- The three Scenario A lines of the specification. -/
def scenarioALines : List Str :=
  ["BERT [12] 91.2 88.4 90.1 89.7".toList,
   "RoBERTa [13] 92.1 89.0 90.8 90.2".toList,
   "XLNet [14] 91.8 88.9 90.5 89.9".toList]

/-- The pattern structure that column inference actually selects on the
Scenario A lines. -/
def scenarioAPatternInfos : List PatternInfo :=
  [⟨.technicalTerms, 0, 3⟩, ⟨.acronyms, 0, 2⟩, ⟨.numbersWithUnits, 22, 3⟩]

/-- A text whose single table section parses into rows of unequal length:
the tab structure has three columns, but the third data line has an empty
middle cell that the tab splitter drops. -/
def c3Text : Str :=
  ("Table 1: Results data\nMeth\tA\tB\nAlp\tC\tD\nBet\t\tE").toList

/-- Three tab-separated lines used as a witness input for strategy
selection. -/
def c6WitnessLines : List Str :=
  ["Meth\tA\tB".toList, "Alp\tC\tD".toList, "Bet\t\tE".toList]

/-- Two non-empty lines of which only one survives the length filter of
column-structure inference. -/
def c6CexLines : List Str := ["TransUNet 91.2".toList, "ab".toList]

/-- A two-row, one-column table on which the two confidence formulas
disagree. -/
def c5CexData : List (List Str) := [[['a']], [['b']]]

/-- A table dictionary with an empty row list. -/
def c8EmptyTable : PyTable :=
  ⟨"academic_text_table", 3, 0, [], mkRat 1 2, ⟨0, 0, 0, 0⟩, [], []⟩

/-- A single candidate above the threshold, for the page-level witness. -/
def c10WitnessTable : PyTable :=
  ⟨"bbox_grid", 1, 0, [[['1']]], mkRat 8 10, ⟨0, 0, 1, 1⟩, [], []⟩

/-! ### Theorems -/

/-- Claim C8: `convert_table_to_markdown` returns the empty string on a
table whose row list is empty, and (being a total function of its input in
this embedding) raises nothing. -/
theorem renderer_empty_rows_yields_empty_string (t : PyTable) (h : t.data = []) :
    convertTableToMarkdown t = [] := by
  unfold convertTableToMarkdown
  rw [h]
  rfl

/-- Claim C8, witness: the empty-data table renders to the empty string. -/
theorem renderer_empty_rows_witness :
    c8EmptyTable.data = [] ∧ convertTableToMarkdown c8EmptyTable = [] :=
  ⟨rfl, renderer_empty_rows_yields_empty_string c8EmptyTable rfl⟩

/-- Claim C9: the marked-line detector returns the empty candidate list on
every input, because grid-cell text extraction always yields an empty row
matrix and the fixed-0.9-confidence candidate is gated on a non-empty one. -/
theorem marked_tables_always_empty (pageNum : ℕ) (drawings : List Drawing) :
    extractMarkedTables pageNum drawings = [] := by
  unfold extractMarkedTables
  simp only [extractTextFromGrid, List.isEmpty_nil, Bool.not_true, Bool.false_eq_true,
    if_false]
  split
  · split <;> rfl
  · rfl

/-- Claim C10: every table returned by the page-level entry point has
confidence at least 0.7, and the returned list is a sublist of the
concatenated detector outputs (the filter neither adds nor modifies
candidates). -/
theorem extract_tables_from_page_confidence_filter (cfg : Bool)
    (bboxTables alignmentTables markerTables : List PyTable) :
    (extractTablesFromPage cfg bboxTables alignmentTables markerTables).Sublist
      (bboxTables ++ alignmentTables ++ markerTables) ∧
    ∀ t ∈ extractTablesFromPage cfg bboxTables alignmentTables markerTables,
      (7 / 10 : ℚ) ≤ t.confidence := by
  unfold extractTablesFromPage deduplicateAndFilterTables
  cases cfg with
  | false => simp
  | true =>
    simp only [Bool.not_true, Bool.false_eq_true, if_false]
    constructor
    · exact List.filter_sublist _
    · intro t ht
      have h710 : min_table_confidence = (7 / 10 : ℚ) := by
        norm_num [min_table_confidence, Rat.mkRat_eq_div]
      rw [← h710]
      exact of_decide_eq_true (List.mem_filter.mp ht).2

/-- Claim C10, witness: a concrete candidate with confidence 0.8 passes the
filter of the page-level entry point. -/
theorem extract_tables_from_page_confidence_filter_witness :
    (7 / 10 : ℚ) ≤ c10WitnessTable.confidence :=
  (extract_tables_from_page_confidence_filter true [c10WitnessTable] [] []).2
    c10WitnessTable (by decide)

/-- Length of the padding step of `_split_by_word_groups`. -/
theorem padColumns_length (cols : List Str) (n : ℕ) :
    (padColumns cols n).length = cols.length + (n - cols.length) := by
  simp [padColumns]

/-- Claim C4 (amended): word-based splitting returns exactly the target
number of cells for every line containing at least one word and every
positive target (for a zero target the Python source would divide by zero
in its even-distribution fallback). -/
theorem split_by_word_groups_length (line : Str) (targetColumns : ℕ)
    (hw : pySplit line ≠ []) (ht : 0 < targetColumns) :
    (splitByWordGroups line targetColumns).length = targetColumns := by
  unfold splitByWordGroups
  rw [if_neg (by simpa [List.isEmpty_iff] using hw)]
  by_cases hle : (pySplit line).length ≤ targetColumns
  · rw [if_pos hle]
    rw [padColumns_length]
    omega
  · rw [if_neg hle]
    rw [List.length_take, padColumns_length]
    omega

/-- Claim C4, witness: a three-word line splits into exactly two cells. -/
theorem split_by_word_groups_length_witness :
    pySplit "alpha 1 2".toList ≠ [] ∧ 0 < 2 ∧
    (splitByWordGroups "alpha 1 2".toList 2).length = 2 :=
  ⟨by decide, by decide,
   split_by_word_groups_length "alpha 1 2".toList 2 (by decide) (by decide)⟩

/-- Claim C4, counterexample: on the empty line the splitter returns the
empty list, not a padded list of two empty cells. -/
theorem split_by_word_groups_empty_counterexample :
    splitByWordGroups [] 2 = [] ∧ (splitByWordGroups [] 2).length ≠ 2 := by
  constructor
  · rfl
  · decide

/-- Claim C5 (amended): the additive-rewards confidence formula worded by
the claim is computed by `_calculate_table_confidence` of `extractors.py`,
for every row matrix. -/
theorem extractors_confidence_is_additive_formula (tableData : List (List Str)) :
    extractorsCalculateTableConfidence tableData = c5ClaimConfidence tableData := by
  unfold extractorsCalculateTableConfidence c5ClaimConfidence
  rfl

/-- Claim C5, counterexample: on a two-row, one-column table the cited
`_calculate_table_confidence` of `table_extractor.py` returns the average
2/3, not the additive-rewards value 3/10. -/
theorem bbox_confidence_not_additive_counterexample :
    calculateTableConfidence c5CexData = 2 / 3 ∧
    c5ClaimConfidence c5CexData = 3 / 10 ∧ (2 / 3 : ℚ) ≠ 3 / 10 := by
  have h0 : c5CexData.isEmpty = false := rfl
  have h1 : c5CexData.map List.length = [1, 1] := by decide
  have h2 : totalCellCount c5CexData = 2 := by decide
  have h3 : nonEmptyCellCount c5CexData = 2 := by decide
  have h6 : c5CexData.length = 2 := rfl
  refine ⟨?_, ?_, by norm_num⟩
  · have h4 : (c5CexData.map (fun row => row.countP hasDigit)).sum = 0 := by decide
    have h4q :
        (List.map (fun row => ((List.countP hasDigit row : ℕ) : ℚ)) c5CexData).sum = 0 := by
      have h5 := congrArg (fun n => ((n : ℕ) : ℚ)) h4
      push_cast at h5
      simpa using h5
    unfold calculateTableConfidence
    simp only [h0, h1, h2, h3, h4q]
    norm_num [maxNat, minNat]
  · have h5 : (c5CexData.map (fun row => row.countP searchNumberPattern)).sum = 0 := by
      decide
    unfold c5ClaimConfidence
    simp only [h0, h1, h2, h5, h6]
    norm_num [maxNat, minNat]

/-- The overlap measure is symmetric in the two boxes. -/
theorem overlapArea_comm (b1 b2 : BBox) : overlapArea b1 b2 = overlapArea b2 b1 := by
  unfold overlapArea
  rw [min_comm b1.x2 b2.x2, max_comm b1.x1 b2.x1, min_comm b1.y2 b2.y2,
    max_comm b1.y1 b2.y1]

/-- The greedy keep-loop of the legacy deduplication preserves pairwise small
overlap: a table is appended only after checking against every kept one. -/
theorem greedyKeep_pairwise (l : List PyTable) :
    ∀ acc : List PyTable,
      acc.Pairwise (fun a b =>
        overlapArea a.bbox b.bbox ≤ (1 / 2) * min (boxArea a.bbox) (boxArea b.bbox)) →
      (greedyKeep acc l).Pairwise (fun a b =>
        overlapArea a.bbox b.bbox ≤ (1 / 2) * min (boxArea a.bbox) (boxArea b.bbox)) := by
  induction l with
  | nil => intro acc h; exact h
  | cons t rest ih =>
    intro acc h
    unfold greedyKeep
    by_cases hov : acc.any (fun e => bboxesOverlap t.bbox e.bbox) = true
    · rw [if_pos hov]
      exact ih acc h
    · rw [if_neg hov]
      apply ih
      rw [List.pairwise_append]
      refine ⟨h, List.pairwise_singleton _ _, ?_⟩
      intro a ha b hb
      rw [List.mem_singleton] at hb
      rw [hb]
      have h2 : acc.any (fun e => bboxesOverlap t.bbox e.bbox) = false := by
        simpa using hov
      have hfalse : bboxesOverlap t.bbox a.bbox = false := by
        have h3 := List.any_eq_false.mp h2 a ha
        simpa using h3
      have hle :
          overlapArea t.bbox a.bbox ≤
            (1 / 2) * min (boxArea t.bbox) (boxArea a.bbox) := by
        unfold bboxesOverlap at hfalse
        exact not_lt.mp (of_decide_eq_false hfalse)
      calc overlapArea a.bbox t.bbox
          = overlapArea t.bbox a.bbox := overlapArea_comm _ _
        _ ≤ (1 / 2) * min (boxArea t.bbox) (boxArea a.bbox) := hle
        _ = (1 / 2) * min (boxArea a.bbox) (boxArea t.bbox) := by rw [min_comm]

/-- Claim C1 (amended): after the `extractors.py` deduplication — sort by
confidence descending, filter, then greedily keep non-overlapping tables —
no two retained tables have bounding-box overlap area exceeding half the
smaller box area.  The `table_extractor.py` copy gives no such guarantee
(see the counterexample). -/
theorem extractors_dedup_overlap_law (minConf : ℚ) (tables : List PyTable) :
    (extractorsDeduplicateAndFilterTables minConf tables).Pairwise
      (fun a b =>
        overlapArea a.bbox b.bbox ≤ (1 / 2) * min (boxArea a.bbox) (boxArea b.bbox)) := by
  unfold extractorsDeduplicateAndFilterTables
  split
  · exact List.Pairwise.nil
  · exact greedyKeep_pairwise _ [] List.Pairwise.nil

/-- Claim C1, counterexample: the modular `_deduplicate_and_filter_tables`
of `table_extractor.py` retains two candidates with identical boxes, whose
overlap is the whole smaller box. -/
theorem table_extractor_dedup_keeps_overlap_counterexample :
    deduplicateAndFilterTables min_table_confidence [c1TableA, c1TableB] =
      [c1TableA, c1TableB] ∧
    (1 / 2 : ℚ) * min (boxArea c1TableA.bbox) (boxArea c1TableB.bbox) <
      overlapArea c1TableA.bbox c1TableB.bbox := by
  constructor
  · decide
  · norm_num [boxArea, overlapArea, c1TableA, c1TableB, min_def, max_def]

/-- An initial value is bounded by a `max`-fold over it. -/
theorem le_foldl_max (l : List ℕ) (a : ℕ) : a ≤ l.foldl max a := by
  induction l generalizing a with
  | nil => exact le_refl a
  | cons x xs ih => exact le_trans (le_max_left a x) (ih (max a x))

/-- A `min`-fold is bounded by its initial value. -/
theorem foldl_min_le (l : List ℕ) (a : ℕ) : l.foldl min a ≤ a := by
  induction l generalizing a with
  | nil => exact le_refl a
  | cons x xs ih => exact le_trans (ih (min a x)) (min_le_left a x)

/-- The minimum of a list is at most its maximum. -/
theorem minNat_le_maxNat (l : List ℕ) : minNat l ≤ maxNat l := by
  cases l with
  | nil => exact le_refl 0
  | cons h t =>
    calc minNat (h :: t) ≤ h := foldl_min_le t h
      _ ≤ max 0 h := le_max_right 0 h
      _ ≤ maxNat (h :: t) := le_foldl_max t (max 0 h)

/-- Non-empty cells are at most all cells. -/
theorem nonEmptyCellCount_le (td : List (List Str)) :
    nonEmptyCellCount td ≤ totalCellCount td := by
  unfold nonEmptyCellCount totalCellCount
  exact List.sum_le_sum (fun row _ => List.countP_le_length _)

/-- Digit-bearing cells are at most all cells. -/
theorem digitCellCount_le (td : List (List Str)) :
    (td.map (fun row => row.countP hasDigit)).sum ≤ totalCellCount td := by
  unfold totalCellCount
  exact List.sum_le_sum (fun row _ => List.countP_le_length _)

/-- An average of rationals in the unit interval lies in the unit interval. -/
theorem list_avg_unit (l : List ℚ) (hb : ∀ x ∈ l, 0 ≤ x ∧ x ≤ 1) (hne : l ≠ []) :
    0 ≤ l.sum / (l.length : ℚ) ∧ l.sum / (l.length : ℚ) ≤ 1 := by
  have hlen : (0 : ℚ) < (l.length : ℚ) := by
    exact_mod_cast List.length_pos.mpr hne
  constructor
  · exact div_nonneg (List.sum_nonneg (fun x hx => (hb x hx).1)) (le_of_lt hlen)
  · rw [div_le_one hlen]
    have := List.sum_le_card_nsmul l 1 (fun x hx => (hb x hx).2)
    simpa using this
theorem pyMaxByNat_foldl_aux {α : Type} (key : α → ℕ) (xs : List α) : ∀ a : α,
    ∃ st, List.foldl (fun acc x =>
        match acc with
        | none => some x
        | some a => if key a < key x then some x else some a) (some a) xs = some st ∧
      (st = a ∨ ∃ pre post, xs = pre ++ st :: post ∧ key a < key st ∧
        ∀ x ∈ pre, key x < key st) ∧
      key a ≤ key st ∧ ∀ x ∈ xs, key x ≤ key st := by
  induction xs with
  | nil =>
    intro a
    exact ⟨a, rfl, Or.inl rfl, le_refl _, by intro x hx; cases hx⟩
  | cons x xs ih =>
    intro a
    simp only [List.foldl_cons]
    by_cases hk : key a < key x
    · rw [if_pos hk]
      obtain ⟨st, heq, hpos, hax, hall⟩ := ih x
      refine ⟨st, heq, ?_, ?_, ?_⟩
      · right
        rcases hpos with rfl | ⟨pre, post, hsplit, hxlt, hprelt⟩
        · exact ⟨[], xs, rfl, hk, by intro y hy; cases hy⟩
        · refine ⟨x :: pre, post, by simp [hsplit], lt_trans hk hxlt, ?_⟩
          intro y hy
          rcases List.mem_cons.mp hy with rfl | hy
          · exact hxlt
          · exact hprelt y hy
      · exact le_of_lt (lt_of_lt_of_le hk hax)
      · intro y hy
        rcases List.mem_cons.mp hy with rfl | hy
        · exact hax
        · exact hall y hy
    · rw [if_neg hk]
      obtain ⟨st, heq, hpos, hax, hall⟩ := ih a
      refine ⟨st, heq, ?_, hax, ?_⟩
      · rcases hpos with rfl | ⟨pre, post, hsplit, halt, hprelt⟩
        · exact Or.inl rfl
        · refine Or.inr ⟨x :: pre, post, by simp [hsplit], halt, ?_⟩
          intro y hy
          rcases List.mem_cons.mp hy with rfl | hy
          · exact lt_of_le_of_lt (not_lt.mp hk) halt
          · exact hprelt y hy
      · intro y hy
        rcases List.mem_cons.mp hy with rfl | hy
        · exact le_trans (not_lt.mp hk) hax
        · exact hall y hy

theorem pyMaxByNat_spec {α : Type} (key : α → ℕ) (l : List α) (st : α)
    (h : pyMaxByNat key l = some st) :
    ∃ pre post, l = pre ++ st :: post ∧ (∀ x ∈ pre, key x < key st) ∧
      ∀ x ∈ l, key x ≤ key st := by
  cases l with
  | nil => simp [pyMaxByNat] at h
  | cons x xs =>
    obtain ⟨st2, heq, hpos, hax, hall⟩ := pyMaxByNat_foldl_aux key xs x
    have h2 : (some st2 : Option α) = some st := by
      rw [← heq]; exact h
    obtain rfl : st2 = st := Option.some.inj h2
    rcases hpos with rfl | ⟨pre, post, hsplit, hxlt, hprelt⟩
    · refine ⟨[], xs, rfl, ?_, ?_⟩
      · intro y hy
        cases hy
      · intro y hy
        rcases List.mem_cons.mp hy with rfl | hy
        · exact le_refl _
        · exact hall y hy
    · refine ⟨x :: pre, post, by simp [hsplit], ?_, ?_⟩
      · intro y hy
        rcases List.mem_cons.mp hy with rfl | hy
        · exact hxlt
        · exact hprelt y hy
      · intro y hy
        rcases List.mem_cons.mp hy with rfl | hy
        · exact le_of_lt hxlt
        · exact hall y hy

theorem pyMaxByNat_eq_none {α : Type} (key : α → ℕ) (l : List α)
    (h : pyMaxByNat key l = none) : l = [] := by
  cases l with
  | nil => rfl
  | cons x xs =>
    obtain ⟨st2, heq, _, _, _⟩ := pyMaxByNat_foldl_aux key xs x
    have h2 : (some st2 : Option α) = none := by
      rw [← heq]; exact h
    cases h2

/-- Unfolding of the structure analysis on inputs with at least two usable
lines. -/
theorem analyze_eq_of_usable (lines : List Str) (hne : lines.isEmpty = false)
    (hlen : ¬ (usableLines lines).length < 2) :
    analyzeTableColumnStructure lines =
      match pyMaxByNat Strategy.score (candidateStrategies (usableLines lines)) with
      | some best => some best.struct
      | none =>
        some (.wordBased (estimateColumnCountFromWords (usableLines lines))) := by
  unfold analyzeTableColumnStructure
  rw [hne]
  simp only [Bool.false_eq_true, if_false]
  rw [if_neg hlen]

/-- Claim C6 (amended): when a candidate has at least two usable (stripped
non-empty and longer than five characters) lines, the structure analysis
returns a structure; the result is the word-based fallback when no scored
strategy applies, and otherwise it is the structure of a strategy of maximal
score that strictly beats every strategy listed before it, the list order
being academic-citation-numerical, multi-space, positional, tab, pattern —
so ties resolve by that fixed priority.  Without the hypothesis the claim
fails: the analysis returns no structure at all on short lines (see the
counterexample). -/
theorem analyze_selects_best (lines : List Str)
    (h2 : 2 ≤ (usableLines lines).length) :
    ∃ r, analyzeTableColumnStructure lines = some r ∧
      ((candidateStrategies (usableLines lines) = [] ∧
          r = .wordBased (estimateColumnCountFromWords (usableLines lines))) ∨
        ∃ pre st post,
          candidateStrategies (usableLines lines) = pre ++ st :: post ∧
          r = st.struct ∧ (∀ x ∈ pre, x.score < st.score) ∧
          ∀ x ∈ candidateStrategies (usableLines lines), x.score ≤ st.score) := by
  have hne : lines.isEmpty = false := by
    cases hl : lines with
    | nil => rw [hl] at h2; simp [usableLines] at h2
    | cons a l => rfl
  have hlen : ¬ (usableLines lines).length < 2 := not_lt.mpr h2
  rw [analyze_eq_of_usable lines hne hlen]
  cases hcs : pyMaxByNat Strategy.score (candidateStrategies (usableLines lines)) with
  | none =>
    exact ⟨_, rfl, Or.inl ⟨pyMaxByNat_eq_none _ _ hcs, rfl⟩⟩
  | some best =>
    obtain ⟨pre, post, heq, hpre, hall⟩ := pyMaxByNat_spec _ _ _ hcs
    exact ⟨best.struct, rfl, Or.inr ⟨pre, best, post, heq, rfl, hpre, hall⟩⟩

/-- Claim C6, witness: the amended theorem applied to three tab-separated
lines, where the analysis returns the tab structure with three columns. -/
theorem analyze_selects_best_witness :
    2 ≤ (usableLines c6WitnessLines).length ∧
    ∃ r, analyzeTableColumnStructure c6WitnessLines = some r ∧
      ((candidateStrategies (usableLines c6WitnessLines) = [] ∧
          r = .wordBased (estimateColumnCountFromWords (usableLines c6WitnessLines))) ∨
        ∃ pre st post,
          candidateStrategies (usableLines c6WitnessLines) = pre ++ st :: post ∧
          r = st.struct ∧ (∀ x ∈ pre, x.score < st.score) ∧
          ∀ x ∈ candidateStrategies (usableLines c6WitnessLines),
            x.score ≤ st.score) :=
  ⟨by decide, analyze_selects_best c6WitnessLines (by decide)⟩

/-- Claim C6, counterexample: two non-empty lines on which the analysis
returns no structure at all — the word-based fallback is not reached, because
lines of at most five characters are discarded first. -/
theorem analyze_no_fallback_counterexample :
    c6CexLines.all (fun l => !(pyStrip l).isEmpty) = true ∧
    analyzeTableColumnStructure c6CexLines = none := by
  constructor
  · decide
  · decide

/-- The average-with-empty-default form shared by both confidence
calculators stays in the unit interval when every factor does. -/
theorem avg_form_unit (l : List ℚ) (hb : ∀ x ∈ l, 0 ≤ x ∧ x ≤ 1) :
    0 ≤ (if l.isEmpty then (1 / 2 : ℚ) else l.sum / (l.length : ℚ)) ∧
    (if l.isEmpty then (1 / 2 : ℚ) else l.sum / (l.length : ℚ)) ≤ 1 := by
  by_cases h : l.isEmpty
  · rw [if_pos h]
    norm_num
  · rw [if_neg h]
    have hne : l ≠ [] := by simpa [List.isEmpty_iff] using h
    exact list_avg_unit l hb hne

/-- The modular grid confidence lies in the unit interval. -/
theorem calc_conf_unit (td : List (List Str)) :
    0 ≤ calculateTableConfidence td ∧ calculateTableConfidence td ≤ 1 := by
  cases td with
  | nil => simp [calculateTableConfidence]
  | cons r rs =>
    unfold calculateTableConfidence
    simp only [List.isEmpty_cons, Bool.false_eq_true, if_false, List.map_cons,
      Bool.not_false, if_true]
    refine avg_form_unit _ ?_
    intro x hx
    simp only [List.mem_append, List.mem_singleton] at hx
    rcases hx with (rfl | rfl) | rfl
    · constructor
      · split
        · positivity
        · exact le_refl 0
      · split
        · next hm => rw [div_le_one (by exact_mod_cast hm)]
                     exact_mod_cast minNat_le_maxNat _
        · norm_num
    · constructor
      · split
        · positivity
        · exact le_refl 0
      · split
        · next hm => rw [div_le_one (by exact_mod_cast hm)]
                     exact_mod_cast nonEmptyCellCount_le _
        · norm_num
    · constructor
      · refine le_min ?_ zero_le_one
        refine mul_nonneg ?_ (by norm_num)
        split
        · refine div_nonneg ?_ (by positivity)
          refine List.sum_nonneg ?_
          intro q hq
          rcases List.mem_cons.mp hq with rfl | hq
          · positivity
          · obtain ⟨row, hrow, rfl⟩ := List.mem_map.mp hq
            positivity
        · exact le_refl 0
      · exact min_le_right _ _

/-- The academic text-table confidence lies in the unit interval. -/
theorem acad_conf_unit (td : List (List Str)) :
    0 ≤ calculateAcademicTableConfidence td ∧
    calculateAcademicTableConfidence td ≤ 1 := by
  cases td with
  | nil => simp [calculateAcademicTableConfidence]
  | cons r rs =>
    unfold calculateAcademicTableConfidence
    simp only [List.isEmpty_cons, Bool.false_eq_true, if_false, List.map_cons,
      Bool.not_false, if_true]
    refine avg_form_unit _ ?_
    intro x hx
    simp only [List.mem_append, List.mem_singleton, List.mem_cons,
      List.not_mem_nil, or_false] at hx
    rcases hx with ((rfl | rfl) | rfl) | rfl
    · constructor
      · split
        · positivity
        · exact le_refl 0
      · split
        · next hm => rw [div_le_one (by exact_mod_cast hm)]
                     exact_mod_cast nonEmptyCellCount_le _
        · norm_num
    · constructor
      · split
        · positivity
        · exact le_refl 0
      · split
        · next hm => rw [div_le_one (by exact_mod_cast hm)]
                     exact_mod_cast minNat_le_maxNat _
        · norm_num
    · constructor
      · refine le_min ?_ zero_le_one
        refine mul_nonneg ?_ (by norm_num)
        split
        · refine div_nonneg ?_ (by positivity)
          refine List.sum_nonneg ?_
          intro q hq
          rcases List.mem_cons.mp hq with rfl | hq
          · positivity
          · obtain ⟨row, hrow, rfl⟩ := List.mem_map.mp hq
            positivity
        · exact le_refl 0
      · exact min_le_right _ _
    · constructor
      · exact le_min (by positivity) zero_le_one
      · exact min_le_right _ _

/-- Claim C7: both confidence calculators of `table_extractor.py` — the
academic-text average of four bounded factors and the grid average of three
bounded factors — return a value in the closed interval from 0 to 1, for
every row matrix. -/
theorem confidence_in_unit_interval (td : List (List Str)) :
    0 ≤ calculateTableConfidence td ∧ calculateTableConfidence td ≤ 1 ∧
    0 ≤ calculateAcademicTableConfidence td ∧
    calculateAcademicTableConfidence td ≤ 1 :=
  ⟨(calc_conf_unit td).1, (calc_conf_unit td).2, (acad_conf_unit td).1,
    (acad_conf_unit td).2⟩

/-- Claim C2, counterexample: on the three Scenario A lines the structure
analysis does not select the academic citation-numerical strategy. -/
theorem scenario_a_not_academic_counterexample :
    (analyzeTableColumnStructure scenarioALines).map ColStructure.isAcademic =
      some false := by
  decide

/-- Claim C2 (amended): on the three Scenario A lines, the academic
citation-numerical finder yields nothing — every line has fewer than the
required eight trailing numeric tokens after its citation bracket — and the
structure analysis instead selects the pattern-based strategy with the three
detected patterns and four columns. -/
theorem scenario_a_actual_structure :
    findAcademicCitationNumericalStructure
      (scenarioALines.filter (fun l => l.contains ']')) = none ∧
    analyzeTableColumnStructure scenarioALines =
      some (.pattern scenarioAPatternInfos 4) := by
  constructor
  · decide
  · decide

/-- Claim C3, counterexample: a parsed text table reaches the caller with
rows of unequal length — the tab splitter drops the empty middle cell of the
third line and nothing re-pads it. -/
theorem extract_tables_nonrectangular_counterexample :
    ((extractTablesFromText c3Text 0).map (fun t => t.data.map List.length) =
      [[3, 3, 2]]) ∧
    ¬ ∀ t ∈ extractTablesFromText c3Text 0, ∀ row ∈ t.data,
        row.length = (t.data.headD []).length := by
  constructor
  · decide
  · decide

/-- Claim C3 (amended): rectangularity holds only after the renderer's
normalisation — every row of the renderer's normalised data has exactly the
renderer's common column count. -/
theorem renderer_rows_rectangular (td : List (List Str)) (row : List Str)
    (hrow : row ∈ rendererNormalizedData td) :
    row.length = rendererMaxCols td := by
  unfold rendererNormalizedData at hrow
  obtain ⟨r, hr, rfl⟩ := List.mem_map.mp hrow
  rw [List.length_take, padColumns_length]
  omega

/-- Claim C3, witness: the normalisation theorem applied to a one-cell table,
padded to the minimum of two columns. -/
theorem renderer_rows_rectangular_witness :
    [['a'], []] ∈ rendererNormalizedData [[['a']]] ∧
    ([['a'], []] : List Str).length = rendererMaxCols [[['a']]] :=
  ⟨by decide, renderer_rows_rectangular [[['a']]] [['a'], []] (by decide)⟩
